import Mathlib

/-!
Verification development for the gravity-sandbox physics core.

Shallow embedding conventions:
* JavaScript floating-point numbers are modelled as real numbers (`ℝ`);
  division by zero yields the junk value `0` (where the source would
  produce `NaN`/`Infinity`, the embedded value is `0` — in both semantics
  such a value is not equal to any finite expected result).
* `Math.sqrt` is `Real.sqrt`, `Math.sign` is `Real.sign`,
  `Math.max` is `max`.
* The mutable per-frame update `updatePlanetPositions` (Canvas component)
  is embedded as a pure function from the previous item list to the next
  item list; the `clearTimeout`/visualisation side channels are modelled
  only where a claim mentions them (the velocity-decomposition entries).
* `calculateOrbitPath` (orbit predictor) is embedded twice: once as a
  pure value-level function (used for the functional claims), and once
  over an explicit object heap (`JSHeap`) that models JavaScript object
  identity and in-place mutation, which is needed to state the
  frame/no-aliasing claim about the scratch clone.
-/

/-- Two-dimensional vector, used for positions, velocities and forces. -/
structure Vec2 where
  x : ℝ
  y : ℝ

/-- Componentwise vector addition (the `+=` accumulation in the source). -/
noncomputable def Vec2.add (a b : Vec2) : Vec2 := ⟨a.x + b.x, a.y + b.y⟩

/-- A canvas item (`BaseItem` in the source) with the fields the physics
core reads: `id`, top-left position `x`/`y`, `width`/`height`, `type`
tag, and the `data` payload fields `mass`, `velocity`, `isOrbital`. -/
structure Body where
  id : String
  x : ℝ
  y : ℝ
  width : ℝ
  height : ℝ
  type : String
  mass : ℝ
  velocity : Vec2
  isOrbital : Bool

/-- One pairwise force contribution accumulated by the live integrator
(`updatePlanetPositions`, part_002 lines 369-406): skip self and
non-planets, honour the `planetaryForces` flag (only the central body is
a source when it is off), clamp to zero below the squared-distance
threshold 100, otherwise Newtonian gravity along the line between the
two stored (top-left) positions. -/
noncomputable def forceContribution (G : ℝ) (planetaryForces : Bool)
    (centralPlanet planet other : Body) : Vec2 :=
  if other.id = planet.id ∨ other.type ≠ "planet" then ⟨0, 0⟩
  else if planetaryForces = false ∧ other.id ≠ centralPlanet.id then ⟨0, 0⟩
  else
    let dx := other.x - planet.x
    let dy := other.y - planet.y
    let distanceSquared := dx * dx + dy * dy
    if distanceSquared < 100 then ⟨0, 0⟩
    else
      let force := G * planet.mass * other.mass / distanceSquared
      let distance := Real.sqrt distanceSquared
      ⟨force * dx / distance, force * dy / distance⟩

/-- Net force on `planet` accumulated over the whole previous item list
(the `prevItems.forEach` loop of `updatePlanetPositions`); the first
item plays the role of the central planet. -/
noncomputable def netForce (G : ℝ) (planetaryForces : Bool)
    (prevItems : List Body) (planet : Body) : Vec2 :=
  match prevItems with
  | [] => ⟨0, 0⟩
  | centralPlanet :: rest =>
    ((centralPlanet :: rest).map fun other =>
      forceContribution G planetaryForces centralPlanet planet other).foldl Vec2.add ⟨0, 0⟩

/-- Per-item body of the `prevItems.map` in `updatePlanetPositions`
(part_002 lines 283-421): non-planets pass through, the item whose id
matches the first item's id is returned unchanged, every other planet
gets the semi-implicit Euler update with `dt` the scaled delta time. -/
noncomputable def updatePlanetSingle (G : ℝ) (planetaryForces : Bool) (dt : ℝ)
    (prevItems : List Body) (item : Body) : Body :=
  if item.type ≠ "planet" then item
  else if prevItems.head?.map Body.id = some item.id then item
  else
    let F := netForce G planetaryForces prevItems item
    let accelerationX := F.x / item.mass
    let accelerationY := F.y / item.mass
    let vx := item.velocity.x + accelerationX * dt
    let vy := item.velocity.y + accelerationY * dt
    { item with velocity := ⟨vx, vy⟩, x := item.x + vx * dt, y := item.y + vy * dt }

/-- One integrator tick (`updatePlanetPositions`): `scaledDeltaTime` is
elapsed real time times `timeScale`; with at most one item, or when the
simulation is paused, the item list is returned unchanged. -/
noncomputable def updatePlanetPositions (isPlaying : Bool) (G : ℝ)
    (planetaryForces : Bool) (timeScale deltaTime : ℝ) (items : List Body) : List Body :=
  let scaledDeltaTime := deltaTime * timeScale
  if items.length ≤ 1 ∨ isPlaying = false then items
  else items.map fun item => updatePlanetSingle G planetaryForces scaledDeltaTime items item

/-- Radial/tangential velocity decomposition of a non-central planet
relative to the central planet (part_002 lines 318-362): unit radial
vector from the planet's center toward the central planet's center, its
perpendicular `(-ny, nx)`, and the two projections scaled back along
those directions.  Returns (radial component, perpendicular component). -/
noncomputable def decomposeVelocity (centralPlanet planet : Body) : Vec2 × Vec2 :=
  let centralX := centralPlanet.x + centralPlanet.width / 2
  let centralY := centralPlanet.y + centralPlanet.height / 2
  let planetX := planet.x + planet.width / 2
  let planetY := planet.y + planet.height / 2
  let dx := centralX - planetX
  let dy := centralY - planetY
  let distance := Real.sqrt (dx * dx + dy * dy)
  let normalizedDx := dx / distance
  let normalizedDy := dy / distance
  let perpDx := -normalizedDy
  let perpDy := normalizedDx
  let radialVelocity := planet.velocity.x * normalizedDx + planet.velocity.y * normalizedDy
  let perpVelocity := planet.velocity.x * perpDx + planet.velocity.y * perpDy
  (⟨radialVelocity * normalizedDx, radialVelocity * normalizedDy⟩,
   ⟨perpVelocity * perpDx, perpVelocity * perpDy⟩)

/-- The velocity-decomposition diagnostic entry pushed for one item
during a tick: only emitted in worlds with more than one item; the item
whose id matches the first item's id gets zero components by convention,
every other planet gets `decomposeVelocity`. -/
noncomputable def velocityDecompEntry (prevItems : List Body) (planet : Body) :
    Option (Vec2 × Vec2) :=
  if prevItems.head?.map Body.id = some planet.id then
    if 1 < prevItems.length then some (⟨0, 0⟩, ⟨0, 0⟩) else none
  else if 1 < prevItems.length then
    match prevItems with
    | [] => none
    | centralPlanet :: _ => some (decomposeVelocity centralPlanet planet)
  else none

/-- Circular-orbit velocity assigned at body creation (`handleClick`,
part_002 lines 507-540) and on orbital-mode toggle
(`togglePlanetOrbitalMode`, lines 624-654): unit radius vector from the
planet's center to the central planet's center, perpendicular
`(-ny, nx)`, magnitude `sqrt (G * centralMass / distance)`. -/
noncomputable def orbitalVelocity (G : ℝ) (centralPlanet planet : Body) : Vec2 :=
  let centralX := centralPlanet.x + centralPlanet.width / 2
  let centralY := centralPlanet.y + centralPlanet.height / 2
  let planetX := planet.x + planet.width / 2
  let planetY := planet.y + planet.height / 2
  let dx := centralX - planetX
  let dy := centralY - planetY
  let distance := Real.sqrt (dx * dx + dy * dy)
  let normalizedDx := dx / distance
  let normalizedDy := dy / distance
  let perpDx := -normalizedDy
  let perpDy := normalizedDx
  let velocityMagnitude := Real.sqrt (G * centralPlanet.mass / distance)
  ⟨perpDx * velocityMagnitude, perpDy * velocityMagnitude⟩

/-- Velocity given to a newly created item in `handleClick` (part_002
lines 493-547).  `rx`/`ry` stand for the two `Math.random()` draws of
the non-orbital branch. -/
noncomputable def handleClickVelocity (G rx ry : ℝ) (items : List Body)
    (newItem : Body) : Vec2 :=
  if newItem.isOrbital = true ∧ 0 < items.length then
    match items with
    | [] => newItem.velocity
    | centralPlanet :: _ => orbitalVelocity G centralPlanet newItem
  else if newItem.isOrbital = false then ⟨(rx - 0.5) * 20, (ry - 0.5) * 20⟩
  else newItem.velocity

/-- `togglePlanetOrbitalMode` (part_002 lines 610-668): flip the
`isOrbital` flag of the matching planet; when it turns on and more than
one item exists, reassign the circular-orbit velocity; when it turns
off, assign a random velocity (`rx`/`ry` model the `Math.random()`
draws). -/
noncomputable def togglePlanetOrbitalMode (G rx ry : ℝ) (planetId : String)
    (prevItems : List Body) : List Body :=
  prevItems.map fun item =>
    if item.id = planetId ∧ item.type = "planet" then
      let updatedItem := { item with isOrbital := !item.isOrbital }
      if updatedItem.isOrbital = true ∧ 1 < prevItems.length then
        match prevItems with
        | [] => updatedItem
        | centralPlanet :: _ =>
          { updatedItem with velocity := orbitalVelocity G centralPlanet updatedItem }
      else if updatedItem.isOrbital = false then
        { updatedItem with velocity := ⟨(rx - 0.5) * 20, (ry - 0.5) * 20⟩ }
      else updatedItem
    else item

/-- Scratch state of the orbit predictor's simulated planet: top-left
position, velocity, accumulated orbit points, and the orbit-completion
trackers (`directionChanges`, `lastSignX`, `lastSignY`). -/
structure PredState where
  px : ℝ
  py : ℝ
  vx : ℝ
  vy : ℝ
  points : List Vec2
  dirChanges : ℕ
  lastSignX : ℝ
  lastSignY : ℝ

/-- One pairwise contribution inside the predictor's
`calculateAcceleration` (part_000 lines 146-183): skip self, honour the
`planetaryForces` flag, clamp to zero when the squared center distance
is below `max otherWidth planetWidth * 2`, otherwise Newtonian gravity
between the other planet's center and the sampled position. -/
noncomputable def predForceContribution (G : ℝ) (planetaryForces : Bool)
    (centralPlanet planet other : Body) (posX posY : ℝ) : Vec2 :=
  if other.id = planet.id then ⟨0, 0⟩
  else if planetaryForces = false ∧ other.id ≠ centralPlanet.id then ⟨0, 0⟩
  else
    let otherX := other.x + other.width / 2
    let otherY := other.y + other.height / 2
    let dx := otherX - posX
    let dy := otherY - posY
    let distanceSquared := dx * dx + dy * dy
    if distanceSquared < max other.width planet.width * 2 then ⟨0, 0⟩
    else
      let distance := Real.sqrt distanceSquared
      let force := G * planet.mass * other.mass / distanceSquared
      ⟨force * dx / distance, force * dy / distance⟩

/-- The predictor's force field `calculateAcceleration` (part_000 lines
146-183): total force over all planets divided by the simulated
planet's mass.  The velocity arguments are accepted but unused, exactly
as in the source. -/
noncomputable def calculateAcceleration (G : ℝ) (planetaryForces : Bool)
    (allPlanets : List Body) (planet : Body) (posX posY velX velY : ℝ) : Vec2 :=
  match allPlanets with
  | [] => ⟨0, 0⟩
  | centralPlanet :: rest =>
    let total := ((centralPlanet :: rest).map fun other =>
      predForceContribution G planetaryForces centralPlanet planet other posX posY).foldl
        Vec2.add ⟨0, 0⟩
    ⟨total.x / planet.mass, total.y / planet.mass⟩

/-- One RK4 step of the predictor (part_000 lines 186-233) from scratch
state `st`: four acceleration stages with the standard (1,2,2,1)/6
velocity weights, position advanced by the trapezoidal average of the
old and new velocity; returns (new top-left position, new velocity). -/
noncomputable def rk4Step (G : ℝ) (planetaryForces : Bool) (allPlanets : List Body)
    (planet : Body) (st : PredState) : Vec2 × Vec2 :=
  let timeStep : ℝ := 0.05
  let posX := st.px + planet.width / 2
  let posY := st.py + planet.height / 2
  let velX := st.vx
  let velY := st.vy
  let k1 := calculateAcceleration G planetaryForces allPlanets planet posX posY velX velY
  let k2 := calculateAcceleration G planetaryForces allPlanets planet
    (posX + velX * timeStep / 2) (posY + velY * timeStep / 2)
    (velX + k1.x * timeStep / 2) (velY + k1.y * timeStep / 2)
  let k3 := calculateAcceleration G planetaryForces allPlanets planet
    (posX + velX * timeStep / 2 + k1.x * timeStep * timeStep / 4)
    (posY + velY * timeStep / 2 + k1.y * timeStep * timeStep / 4)
    (velX + k2.x * timeStep / 2) (velY + k2.y * timeStep / 2)
  let k4 := calculateAcceleration G planetaryForces allPlanets planet
    (posX + velX * timeStep + k2.x * timeStep * timeStep / 2)
    (posY + velY * timeStep + k2.y * timeStep * timeStep / 2)
    (velX + k3.x * timeStep) (velY + k3.y * timeStep)
  let newVelX := velX + (k1.x + 2 * k2.x + 2 * k3.x + k4.x) * timeStep / 6
  let newVelY := velY + (k1.y + 2 * k2.y + 2 * k3.y + k4.y) * timeStep / 6
  let newPosX := posX + (velX + newVelX) * timeStep / 2 - planet.width / 2
  let newPosY := posY + (velY + newVelY) * timeStep / 2 - planet.height / 2
  (⟨newPosX, newPosY⟩, ⟨newVelX, newVelY⟩)

/-- Center point pushed onto the orbit path after one RK4 step
(part_000 lines 242-246). -/
noncomputable def stepNewPoint (G : ℝ) (planetaryForces : Bool) (allPlanets : List Body)
    (planet : Body) (st : PredState) : Vec2 :=
  ⟨(rk4Step G planetaryForces allPlanets planet st).1.x + planet.width / 2,
   (rk4Step G planetaryForces allPlanets planet st).1.y + planet.height / 2⟩

/-- Direction-change bookkeeping after one step (part_000 lines
248-256): bump the counter and remember the new component signs
whenever either sign differs from the last recorded one.  Returns
(directionChanges, lastSignX, lastSignY). -/
noncomputable def signUpdate (st : PredState) (nvx nvy : ℝ) : ℕ × ℝ × ℝ :=
  let currentSignX := Real.sign nvx
  let currentSignY := Real.sign nvy
  if currentSignX ≠ st.lastSignX ∨ currentSignY ≠ st.lastSignY then
    (st.dirChanges + 1, currentSignX, currentSignY)
  else (st.dirChanges, st.lastSignX, st.lastSignY)

/-- One iteration of the predictor loop (part_000 lines 186-305) at
loop index `i`: RK4 step, push the new center point, update the
direction-change trackers, then — only after the warm-up (`50 < i`) —
test loop closure (distance back to the first point below
`planet.width * 2`, normalized velocity dot product above `0.9`, at
least 4 direction changes) and, failing that, the divergence abort
(distance to the central planet beyond 3 times the initial distance).
Returns the new state and whether the loop breaks. -/
noncomputable def orbitStep (G : ℝ) (planetaryForces : Bool) (allPlanets : List Body)
    (planet centralPlanet : Body) (initialPoint initialVelocity : Vec2)
    (initialVelocityMagnitude : ℝ) (i : ℕ) (st : PredState) : PredState × Bool :=
  let r := rk4Step G planetaryForces allPlanets planet st
  let newPoint := stepNewPoint G planetaryForces allPlanets planet st
  let su := signUpdate st r.2.x r.2.y
  let st' : PredState :=
    ⟨r.1.x, r.1.y, r.2.x, r.2.y, st.points ++ [newPoint], su.1, su.2.1, su.2.2⟩
  if 50 < i then
    if Real.sqrt ((newPoint.x - initialPoint.x) ^ 2 + (newPoint.y - initialPoint.y) ^ 2) <
         planet.width * 2 ∧
       0.9 < (initialVelocity.x * r.2.x + initialVelocity.y * r.2.y) /
         (initialVelocityMagnitude * Real.sqrt (r.2.x * r.2.x + r.2.y * r.2.y)) ∧
       4 ≤ su.1 then (st', true)
    else if Real.sqrt ((initialPoint.x - (centralPlanet.x + centralPlanet.width / 2)) ^ 2 +
              (initialPoint.y - (centralPlanet.y + centralPlanet.height / 2)) ^ 2) * 3 <
            Real.sqrt ((newPoint.x - (centralPlanet.x + centralPlanet.width / 2)) ^ 2 +
              (newPoint.y - (centralPlanet.y + centralPlanet.height / 2)) ^ 2) then (st', true)
    else (st', false)
  else (st', false)

/-- The predictor's bounded main loop (part_000 lines 186-305): at most
`fuel` further iterations, stopping early when `orbitStep` signals a
break; returns the accumulated orbit points. -/
noncomputable def orbitLoop (G : ℝ) (planetaryForces : Bool) (allPlanets : List Body)
    (planet centralPlanet : Body) (initialPoint initialVelocity : Vec2)
    (initialVelocityMagnitude : ℝ) : ℕ → ℕ → PredState → List Vec2
  | 0, _, st => st.points
  | fuel + 1, i, st =>
    let s := orbitStep G planetaryForces allPlanets planet centralPlanet initialPoint
      initialVelocity initialVelocityMagnitude i st
    if s.2 then s.1.points
    else orbitLoop G planetaryForces allPlanets planet centralPlanet initialPoint
      initialVelocity initialVelocityMagnitude fuel (i + 1) s.1

/-- The orbit predictor `calculateOrbitPath` (part_000 lines 87-308):
empty result when the target's id matches the first planet's id or
fewer than two planets exist; otherwise the center position is pushed
as the first point and the RK4 loop runs for at most `MAX_POINTS =
2000` iterations. -/
noncomputable def calculateOrbitPath (planet : Body) (allPlanets : List Body)
    (G : ℝ) (planetaryForces : Bool) : List Vec2 :=
  if allPlanets.head?.map Body.id = some planet.id ∨ allPlanets.length ≤ 1 then []
  else
    match allPlanets with
    | [] => []
    | centralPlanet :: rest =>
      let initialPoint : Vec2 :=
        ⟨planet.x + planet.width / 2, planet.y + planet.height / 2⟩
      let initialVelocity : Vec2 := ⟨planet.velocity.x, planet.velocity.y⟩
      let initialVelocityMagnitude := Real.sqrt
        (initialVelocity.x * initialVelocity.x + initialVelocity.y * initialVelocity.y)
      orbitLoop G planetaryForces (centralPlanet :: rest) planet centralPlanet
        initialPoint initialVelocity initialVelocityMagnitude 2000 0
        ⟨planet.x, planet.y, planet.velocity.x, planet.velocity.y, [initialPoint], 0,
         Real.sign planet.velocity.x, Real.sign planet.velocity.y⟩

/-- A JavaScript body object as stored on the heap: the scalar fields
plus a reference (`velRef`) to its separately allocated
`data.velocity` object. -/
structure BodyObj where
  id : String
  x : ℝ
  y : ℝ
  width : ℝ
  height : ℝ
  mass : ℝ
  velRef : ℕ

/-- An explicit object heap modelling JavaScript object identity: body
objects and velocity objects live at numeric references; `nextB` and
`nextV` are the allocation frontiers (every live object sits strictly
below them, and `...` object spreads allocate at the frontier). -/
structure JSHeap where
  nextB : ℕ
  bodyAt : ℕ → BodyObj
  nextV : ℕ
  velAt : ℕ → Vec2

/-- Heap-level force field of the predictor: same arithmetic as
`calculateAcceleration`, but every planet is read from the heap through
its reference, as the JavaScript closure reads the live objects. -/
noncomputable def calculateAccelerationH (G : ℝ) (planetaryForces : Bool) (h : JSHeap)
    (allRefs : List ℕ) (planetRef simRef : ℕ) (posX posY : ℝ) : Vec2 :=
  match allRefs with
  | [] => ⟨0, 0⟩
  | centralRef :: rest =>
    let sim := h.bodyAt simRef
    let planet := h.bodyAt planetRef
    let central := h.bodyAt centralRef
    let total := ((centralRef :: rest).map fun oref =>
      let other := h.bodyAt oref
      if other.id = sim.id then (⟨0, 0⟩ : Vec2)
      else if planetaryForces = false ∧ other.id ≠ central.id then ⟨0, 0⟩
      else
        let dx := other.x + other.width / 2 - posX
        let dy := other.y + other.height / 2 - posY
        let distanceSquared := dx * dx + dy * dy
        if distanceSquared < max other.width planet.width * 2 then ⟨0, 0⟩
        else
          let distance := Real.sqrt distanceSquared
          let force := G * sim.mass * other.mass / distanceSquared
          ⟨force * dx / distance, force * dy / distance⟩).foldl Vec2.add ⟨0, 0⟩
    ⟨total.x / sim.mass, total.y / sim.mass⟩

/-- Heap-level RK4 step: reads the scratch planet and its velocity
object from the heap, returns (new top-left position, new velocity). -/
noncomputable def rk4StepH (G : ℝ) (planetaryForces : Bool) (h : JSHeap)
    (allRefs : List ℕ) (planetRef simRef : ℕ) : Vec2 × Vec2 :=
  let sim := h.bodyAt simRef
  let vel := h.velAt sim.velRef
  let timeStep : ℝ := 0.05
  let posX := sim.x + sim.width / 2
  let posY := sim.y + sim.height / 2
  let velX := vel.x
  let velY := vel.y
  let k1 := calculateAccelerationH G planetaryForces h allRefs planetRef simRef posX posY
  let k2 := calculateAccelerationH G planetaryForces h allRefs planetRef simRef
    (posX + velX * timeStep / 2) (posY + velY * timeStep / 2)
  let k3 := calculateAccelerationH G planetaryForces h allRefs planetRef simRef
    (posX + velX * timeStep / 2 + k1.x * timeStep * timeStep / 4)
    (posY + velY * timeStep / 2 + k1.y * timeStep * timeStep / 4)
  let k4 := calculateAccelerationH G planetaryForces h allRefs planetRef simRef
    (posX + velX * timeStep + k2.x * timeStep * timeStep / 2)
    (posY + velY * timeStep + k2.y * timeStep * timeStep / 2)
  let newVelX := velX + (k1.x + 2 * k2.x + 2 * k3.x + k4.x) * timeStep / 6
  let newVelY := velY + (k1.y + 2 * k2.y + 2 * k3.y + k4.y) * timeStep / 6
  let newPosX := posX + (velX + newVelX) * timeStep / 2 - sim.width / 2
  let newPosY := posY + (velY + newVelY) * timeStep / 2 - sim.height / 2
  (⟨newPosX, newPosY⟩, ⟨newVelX, newVelY⟩)

/-- Pure loop trackers of the heap-level predictor (the locals of the
JavaScript function: accumulated points, direction changes, last
signs). -/
structure PredTrack where
  points : List Vec2
  dirChanges : ℕ
  lastSignX : ℝ
  lastSignY : ℝ

/-- One iteration of the heap-level predictor loop: RK4 step, in-place
update of the scratch planet object (`simRef`) and its velocity object,
push of the new center point, tracker update, and the same break tests
as `orbitStep`.  Returns (heap, trackers, break flag). -/
noncomputable def orbitStepH (G : ℝ) (planetaryForces : Bool) (allRefs : List ℕ)
    (planetRef simRef centralRef : ℕ) (initialPoint initialVelocity : Vec2)
    (initialVelocityMagnitude : ℝ) (i : ℕ) (h : JSHeap) (tr : PredTrack) :
    JSHeap × PredTrack × Bool :=
  let r := rk4StepH G planetaryForces h allRefs planetRef simRef
  let sim := h.bodyAt simRef
  let h' : JSHeap :=
    { h with
      bodyAt := Function.update h.bodyAt simRef { sim with x := r.1.x, y := r.1.y },
      velAt := Function.update h.velAt sim.velRef r.2 }
  let newPoint : Vec2 := ⟨r.1.x + sim.width / 2, r.1.y + sim.height / 2⟩
  let currentSignX := Real.sign r.2.x
  let currentSignY := Real.sign r.2.y
  let su : ℕ × ℝ × ℝ :=
    if currentSignX ≠ tr.lastSignX ∨ currentSignY ≠ tr.lastSignY then
      (tr.dirChanges + 1, currentSignX, currentSignY)
    else (tr.dirChanges, tr.lastSignX, tr.lastSignY)
  let tr' : PredTrack := ⟨tr.points ++ [newPoint], su.1, su.2.1, su.2.2⟩
  let central := h'.bodyAt centralRef
  if 50 < i then
    if Real.sqrt ((newPoint.x - initialPoint.x) ^ 2 + (newPoint.y - initialPoint.y) ^ 2) <
         (h'.bodyAt planetRef).width * 2 ∧
       0.9 < (initialVelocity.x * r.2.x + initialVelocity.y * r.2.y) /
         (initialVelocityMagnitude * Real.sqrt (r.2.x * r.2.x + r.2.y * r.2.y)) ∧
       4 ≤ su.1 then (h', tr', true)
    else if Real.sqrt ((initialPoint.x - (central.x + central.width / 2)) ^ 2 +
              (initialPoint.y - (central.y + central.height / 2)) ^ 2) * 3 <
            Real.sqrt ((newPoint.x - (central.x + central.width / 2)) ^ 2 +
              (newPoint.y - (central.y + central.height / 2)) ^ 2) then (h', tr', true)
    else (h', tr', false)
  else (h', tr', false)

/-- The heap-level predictor loop: at most `fuel` iterations, stopping
early on a break; returns the final heap and the accumulated points. -/
noncomputable def orbitLoopH (G : ℝ) (planetaryForces : Bool) (allRefs : List ℕ)
    (planetRef simRef centralRef : ℕ) (initialPoint initialVelocity : Vec2)
    (initialVelocityMagnitude : ℝ) : ℕ → ℕ → JSHeap → PredTrack → JSHeap × List Vec2
  | 0, _, h, tr => (h, tr.points)
  | fuel + 1, i, h, tr =>
    let s := orbitStepH G planetaryForces allRefs planetRef simRef centralRef initialPoint
      initialVelocity initialVelocityMagnitude i h tr
    if s.2.2 then (s.1, s.2.1.points)
    else orbitLoopH G planetaryForces allRefs planetRef simRef centralRef initialPoint
      initialVelocity initialVelocityMagnitude fuel (i + 1) s.1 s.2.1

/-- Heap-level `calculateOrbitPath`: the guard, then the clone — the
spread `{...planet, data: {...planet.data, velocity: {...}}}` allocates
a fresh velocity object at `h.nextV` copying the target's velocity, and
a fresh body object at `h.nextB` pointing at it — then the loop.
Returns the final heap and the orbit points. -/
noncomputable def calculateOrbitPathH (h : JSHeap) (planetRef : ℕ) (allRefs : List ℕ)
    (G : ℝ) (planetaryForces : Bool) : JSHeap × List Vec2 :=
  let planet := h.bodyAt planetRef
  if (allRefs.head?.map fun r => (h.bodyAt r).id) = some planet.id ∨
      allRefs.length ≤ 1 then (h, [])
  else
    match allRefs with
    | [] => (h, [])
    | centralRef :: restRefs =>
      let vRef := h.nextV
      let h1 : JSHeap := { h with
        nextV := h.nextV + 1,
        velAt := Function.update h.velAt h.nextV (h.velAt planet.velRef) }
      let bRef := h1.nextB
      let h2 : JSHeap := { h1 with
        nextB := h1.nextB + 1,
        bodyAt := Function.update h1.bodyAt h1.nextB { planet with velRef := vRef } }
      let initialPoint : Vec2 :=
        ⟨planet.x + planet.width / 2, planet.y + planet.height / 2⟩
      let initialVelocity := h.velAt planet.velRef
      let initialVelocityMagnitude := Real.sqrt
        (initialVelocity.x * initialVelocity.x + initialVelocity.y * initialVelocity.y)
      orbitLoopH G planetaryForces (centralRef :: restRefs) planetRef bRef centralRef
        initialPoint initialVelocity initialVelocityMagnitude 2000 0 h2
        ⟨[initialPoint], 0, Real.sign initialVelocity.x, Real.sign initialVelocity.y⟩

theorem Vec2.add_zero_vec (v : Vec2) : Vec2.add v ⟨0, 0⟩ = v := by
  cases v; simp [Vec2.add]

theorem Vec2.zero_vec_add (v : Vec2) : Vec2.add ⟨0, 0⟩ v = v := by
  cases v; simp [Vec2.add]

theorem foldl_add_zeros : ∀ (l : List Vec2) (acc : Vec2),
    (∀ v ∈ l, v = (⟨0, 0⟩ : Vec2)) → l.foldl Vec2.add acc = acc := by
  intro l
  induction l with
  | nil => intro acc _; rfl
  | cons a tl ih =>
    intro acc hz
    have ha : a = (⟨0, 0⟩ : Vec2) := hz a (by simp)
    have htl : ∀ v ∈ tl, v = (⟨0, 0⟩ : Vec2) := fun v hv => hz v (by simp [hv])
    simp only [List.foldl_cons, ha, Vec2.add_zero_vec]
    exact ih acc htl

/-- Claim C10: the first (primary) item is never moved by the
integrator — for every tick, every play state and every value of the
`planetaryForces` flag, the head of the item list (position, velocity
and all other fields) is returned unchanged, even though other bodies
would gravitationally attract it. -/
theorem claim10_primary_unchanged (isPlaying : Bool) (G : ℝ) (planetaryForces : Bool)
    (timeScale deltaTime : ℝ) (items : List Body) :
    (updatePlanetPositions isPlaying G planetaryForces timeScale deltaTime items).head? =
      items.head? := by
  unfold updatePlanetPositions
  by_cases h : items.length ≤ 1 ∨ isPlaying = false
  · simp [h]
  · simp only [if_neg h]
    cases items with
    | nil => rfl
    | cons c rest =>
      simp only [List.map_cons, List.head?_cons, Option.some.injEq]
      unfold updatePlanetSingle
      by_cases hty : c.type ≠ "planet"
      · rw [if_pos hty]
      · rw [if_neg hty, if_pos (by simp)]


theorem radial_perp_sum_x (vx vy dx dy : ℝ) (hpos : 0 < dx * dx + dy * dy) :
    (vx * (dx / Real.sqrt (dx * dx + dy * dy)) + vy * (dy / Real.sqrt (dx * dx + dy * dy))) *
        (dx / Real.sqrt (dx * dx + dy * dy)) +
      (vx * -(dy / Real.sqrt (dx * dx + dy * dy)) + vy * (dx / Real.sqrt (dx * dx + dy * dy))) *
        -(dy / Real.sqrt (dx * dx + dy * dy)) = vx := by
  have hsq : Real.sqrt (dx * dx + dy * dy) * Real.sqrt (dx * dx + dy * dy) =
      dx * dx + dy * dy := Real.mul_self_sqrt hpos.le
  have hs : Real.sqrt (dx * dx + dy * dy) ≠ 0 := ne_of_gt (Real.sqrt_pos.mpr hpos)
  field_simp
  ring

theorem radial_perp_sum_y (vx vy dx dy : ℝ) (hpos : 0 < dx * dx + dy * dy) :
    (vx * (dx / Real.sqrt (dx * dx + dy * dy)) + vy * (dy / Real.sqrt (dx * dx + dy * dy))) *
        (dy / Real.sqrt (dx * dx + dy * dy)) +
      (vx * -(dy / Real.sqrt (dx * dx + dy * dy)) + vy * (dx / Real.sqrt (dx * dx + dy * dy))) *
        (dx / Real.sqrt (dx * dx + dy * dy)) = vy := by
  have hsq : Real.sqrt (dx * dx + dy * dy) * Real.sqrt (dx * dx + dy * dy) =
      dx * dx + dy * dy := Real.mul_self_sqrt hpos.le
  have hs : Real.sqrt (dx * dx + dy * dy) ≠ 0 := ne_of_gt (Real.sqrt_pos.mpr hpos)
  field_simp
  ring

/-- Claim C4 (amended): in a world with at least two items, for every
planet whose center is distinct from the central planet's center, the
diagnostic decomposition's radial plus tangential component vectors sum
exactly to the planet's velocity, and the item matching the primary's
id always decomposes to zero components.  (The amendment adds the
center-distinctness hypothesis: at coincident centers the source
divides by zero — `NaN` in JavaScript, the junk value `0` here — and
the components no longer sum to the velocity, see the
counterexample.) -/
theorem claim4_decomposition_sum (centralPlanet : Body) (rest : List Body)
    (planet : Body) :
    (¬ (centralPlanet :: rest).head?.map Body.id = some planet.id →
      2 ≤ (centralPlanet :: rest).length →
      ((centralPlanet.x + centralPlanet.width / 2) - (planet.x + planet.width / 2) ≠ 0 ∨
       (centralPlanet.y + centralPlanet.height / 2) - (planet.y + planet.height / 2) ≠ 0) →
      velocityDecompEntry (centralPlanet :: rest) planet =
        some (decomposeVelocity centralPlanet planet) ∧
      (decomposeVelocity centralPlanet planet).1.x +
        (decomposeVelocity centralPlanet planet).2.x = planet.velocity.x ∧
      (decomposeVelocity centralPlanet planet).1.y +
        (decomposeVelocity centralPlanet planet).2.y = planet.velocity.y) ∧
    ((centralPlanet :: rest).head?.map Body.id = some planet.id →
      2 ≤ (centralPlanet :: rest).length →
      velocityDecompEntry (centralPlanet :: rest) planet =
        some (⟨0, 0⟩, ⟨0, 0⟩)) := by
  constructor
  · intro hid h2 hd
    have h1 : 1 < (centralPlanet :: rest).length := h2
    have hpos : 0 <
        ((centralPlanet.x + centralPlanet.width / 2) - (planet.x + planet.width / 2)) *
          ((centralPlanet.x + centralPlanet.width / 2) - (planet.x + planet.width / 2)) +
        ((centralPlanet.y + centralPlanet.height / 2) - (planet.y + planet.height / 2)) *
          ((centralPlanet.y + centralPlanet.height / 2) - (planet.y + planet.height / 2)) := by
      rcases hd with h | h
      · nlinarith [mul_self_nonneg
          ((centralPlanet.y + centralPlanet.height / 2) - (planet.y + planet.height / 2)),
          mul_self_pos.mpr h]
      · nlinarith [mul_self_nonneg
          ((centralPlanet.x + centralPlanet.width / 2) - (planet.x + planet.width / 2)),
          mul_self_pos.mpr h]
    refine ⟨by simp only [velocityDecompEntry, if_neg hid, if_pos h1], ?_, ?_⟩
    · simpa only [decomposeVelocity] using
        radial_perp_sum_x planet.velocity.x planet.velocity.y
          ((centralPlanet.x + centralPlanet.width / 2) - (planet.x + planet.width / 2))
          ((centralPlanet.y + centralPlanet.height / 2) - (planet.y + planet.height / 2)) hpos
    · simpa only [decomposeVelocity] using
        radial_perp_sum_y planet.velocity.x planet.velocity.y
          ((centralPlanet.x + centralPlanet.width / 2) - (planet.x + planet.width / 2))
          ((centralPlanet.y + centralPlanet.height / 2) - (planet.y + planet.height / 2)) hpos
  · intro hid h2
    have h1 : 1 < (centralPlanet :: rest).length := h2
    simp only [velocityDecompEntry, if_pos hid, if_pos h1]

/-- Claim C4 counterexample: a non-primary planet whose center
coincides with the primary's center (both centers at the origin).  The
source computes `distance = 0` and divides by it (`NaN` in JavaScript,
junk `0` in this embedding); in either semantics the radial and
tangential components do not sum back to the velocity `(1, 0)` — the
decomposition entry is emitted for this body, yet the component sum is
`0 ≠ 1`.  This refutes the claim as stated for every non-primary
body. -/
theorem claim4_counterexample :
    velocityDecompEntry
        [⟨"a", 0, 0, 0, 0, "planet", 1, ⟨0, 0⟩, true⟩,
         ⟨"b", 0, 0, 0, 0, "planet", 1, ⟨1, 0⟩, true⟩]
        ⟨"b", 0, 0, 0, 0, "planet", 1, ⟨1, 0⟩, true⟩ =
      some (decomposeVelocity ⟨"a", 0, 0, 0, 0, "planet", 1, ⟨0, 0⟩, true⟩
        ⟨"b", 0, 0, 0, 0, "planet", 1, ⟨1, 0⟩, true⟩) ∧
    (decomposeVelocity ⟨"a", 0, 0, 0, 0, "planet", 1, ⟨0, 0⟩, true⟩
        ⟨"b", 0, 0, 0, 0, "planet", 1, ⟨1, 0⟩, true⟩).1.x +
      (decomposeVelocity ⟨"a", 0, 0, 0, 0, "planet", 1, ⟨0, 0⟩, true⟩
        ⟨"b", 0, 0, 0, 0, "planet", 1, ⟨1, 0⟩, true⟩).2.x ≠
      (⟨"b", 0, 0, 0, 0, "planet", 1, ⟨1, 0⟩, true⟩ : Body).velocity.x := by
  constructor
  · simp [velocityDecompEntry]
  · simp [decomposeVelocity]

/-- Claim C4 witness: the amended theorem applied to a concrete
two-body world (primary at the origin, secondary at `x = 30` with
velocity `(2, 3)`). -/
theorem claim4_witness :
    velocityDecompEntry
        [⟨"a", 0, 0, 10, 10, "planet", 5, ⟨0, 0⟩, true⟩,
         ⟨"b", 30, 0, 10, 10, "planet", 1, ⟨2, 3⟩, true⟩]
        ⟨"b", 30, 0, 10, 10, "planet", 1, ⟨2, 3⟩, true⟩ =
      some (decomposeVelocity ⟨"a", 0, 0, 10, 10, "planet", 5, ⟨0, 0⟩, true⟩
        ⟨"b", 30, 0, 10, 10, "planet", 1, ⟨2, 3⟩, true⟩) ∧
    (decomposeVelocity ⟨"a", 0, 0, 10, 10, "planet", 5, ⟨0, 0⟩, true⟩
        ⟨"b", 30, 0, 10, 10, "planet", 1, ⟨2, 3⟩, true⟩).1.x +
      (decomposeVelocity ⟨"a", 0, 0, 10, 10, "planet", 5, ⟨0, 0⟩, true⟩
        ⟨"b", 30, 0, 10, 10, "planet", 1, ⟨2, 3⟩, true⟩).2.x = 2 ∧
    (decomposeVelocity ⟨"a", 0, 0, 10, 10, "planet", 5, ⟨0, 0⟩, true⟩
        ⟨"b", 30, 0, 10, 10, "planet", 1, ⟨2, 3⟩, true⟩).1.y +
      (decomposeVelocity ⟨"a", 0, 0, 10, 10, "planet", 5, ⟨0, 0⟩, true⟩
        ⟨"b", 30, 0, 10, 10, "planet", 1, ⟨2, 3⟩, true⟩).2.y = 3 :=
  (claim4_decomposition_sum ⟨"a", 0, 0, 10, 10, "planet", 5, ⟨0, 0⟩, true⟩
      [⟨"b", 30, 0, 10, 10, "planet", 1, ⟨2, 3⟩, true⟩]
      ⟨"b", 30, 0, 10, 10, "planet", 1, ⟨2, 3⟩, true⟩).1
    (by decide) (by decide) (Or.inl (by norm_num))

/-- Claim C1 (amended): for a running tick with elapsed real time
`deltaTime` and scale `timeScale`, every *non-primary* planet item (id
different from the first item's id) is advanced with
`dt = deltaTime * timeScale` by semi-implicit Euler: the velocity is
incremented by `netForce / mass * dt` first and the position by the
*updated* velocity times `dt`, the net force being accumulated under
the current `planetaryForces` flag.  (The amendment restricts the
claim's "every body" to non-primary planet items: the integrator
skips the first body entirely, see the counterexample.) -/
theorem claim1_semi_implicit_euler (G : ℝ) (planetaryForces : Bool)
    (timeScale deltaTime : ℝ) (items : List Body) (h2 : 2 ≤ items.length)
    (i : ℕ) (b : Body) (hib : items[i]? = some b) (hty : b.type = "planet")
    (hid : ¬ items.head?.map Body.id = some b.id) :
    (updatePlanetPositions true G planetaryForces timeScale deltaTime items)[i]? = some
      { b with
        x := b.x + (b.velocity.x +
          (netForce G planetaryForces items b).x / b.mass * (deltaTime * timeScale)) *
            (deltaTime * timeScale),
        y := b.y + (b.velocity.y +
          (netForce G planetaryForces items b).y / b.mass * (deltaTime * timeScale)) *
            (deltaTime * timeScale),
        velocity := ⟨b.velocity.x +
            (netForce G planetaryForces items b).x / b.mass * (deltaTime * timeScale),
          b.velocity.y +
            (netForce G planetaryForces items b).y / b.mass * (deltaTime * timeScale)⟩ } := by
  have hguard : ¬ (items.length ≤ 1 ∨ (true : Bool) = false) := by
    push_neg
    exact ⟨by omega, by simp⟩
  unfold updatePlanetPositions
  simp only [if_neg hguard, List.getElem?_map, hib, Option.map_some']
  unfold updatePlanetSingle
  rw [if_neg (by simp [hty]), if_neg hid]

/-- Claim C1 counterexample: a running tick (`G = 1`,
`planetaryForces = true`, `timeScale = 1`, `deltaTime = 1`) on a
two-body world where the second body pulls on the first with net
acceleration `1/400 ≠ 0` in `x`.  The claim's semi-implicit Euler
update would change the first body's velocity by that amount, but the
integrator returns the first (primary) body completely unchanged, so
the claim is false for "every body". -/
theorem claim1_counterexample :
    ((updatePlanetPositions true 1 true 1 1
        [⟨"a", 0, 0, 0, 0, "planet", 1, ⟨0, 0⟩, true⟩,
         ⟨"b", 20, 0, 0, 0, "planet", 1, ⟨0, 0⟩, true⟩]).head?.map
      fun p => p.velocity.x) = some 0 ∧
    ((⟨"a", 0, 0, 0, 0, "planet", 1, ⟨0, 0⟩, true⟩ : Body).velocity.x +
      (netForce 1 true
        [⟨"a", 0, 0, 0, 0, "planet", 1, ⟨0, 0⟩, true⟩,
         ⟨"b", 20, 0, 0, 0, "planet", 1, ⟨0, 0⟩, true⟩]
        ⟨"a", 0, 0, 0, 0, "planet", 1, ⟨0, 0⟩, true⟩).x /
        (⟨"a", 0, 0, 0, 0, "planet", 1, ⟨0, 0⟩, true⟩ : Body).mass * (1 * 1)) ≠ 0 := by
  constructor
  · simp [updatePlanetPositions, updatePlanetSingle]
  · have h400 : Real.sqrt 400 = 20 := by
      rw [show (400 : ℝ) = 20 ^ 2 by norm_num, Real.sqrt_sq (by norm_num : (0 : ℝ) ≤ 20)]
    have hne : ("b" : String) ≠ "a" := by decide
    simp only [netForce, forceContribution, List.map_cons, List.map_nil]
    norm_num [Vec2.add, hne, h400]

/-- Claim C1 witness: the amended theorem applied to the second body of
a concrete two-body world. -/
theorem claim1_witness :
    (updatePlanetPositions true 1 true 1 1
        [⟨"a", 0, 0, 0, 0, "planet", 1, ⟨0, 0⟩, true⟩,
         ⟨"b", 20, 0, 0, 0, "planet", 1, ⟨0, 0⟩, true⟩])[1]? = some
      { (⟨"b", 20, 0, 0, 0, "planet", 1, ⟨0, 0⟩, true⟩ : Body) with
        x := (⟨"b", 20, 0, 0, 0, "planet", 1, ⟨0, 0⟩, true⟩ : Body).x +
          ((⟨"b", 20, 0, 0, 0, "planet", 1, ⟨0, 0⟩, true⟩ : Body).velocity.x +
            (netForce 1 true
              [⟨"a", 0, 0, 0, 0, "planet", 1, ⟨0, 0⟩, true⟩,
               ⟨"b", 20, 0, 0, 0, "planet", 1, ⟨0, 0⟩, true⟩]
              ⟨"b", 20, 0, 0, 0, "planet", 1, ⟨0, 0⟩, true⟩).x /
              (⟨"b", 20, 0, 0, 0, "planet", 1, ⟨0, 0⟩, true⟩ : Body).mass * (1 * 1)) * (1 * 1),
        y := (⟨"b", 20, 0, 0, 0, "planet", 1, ⟨0, 0⟩, true⟩ : Body).y +
          ((⟨"b", 20, 0, 0, 0, "planet", 1, ⟨0, 0⟩, true⟩ : Body).velocity.y +
            (netForce 1 true
              [⟨"a", 0, 0, 0, 0, "planet", 1, ⟨0, 0⟩, true⟩,
               ⟨"b", 20, 0, 0, 0, "planet", 1, ⟨0, 0⟩, true⟩]
              ⟨"b", 20, 0, 0, 0, "planet", 1, ⟨0, 0⟩, true⟩).y /
              (⟨"b", 20, 0, 0, 0, "planet", 1, ⟨0, 0⟩, true⟩ : Body).mass * (1 * 1)) * (1 * 1),
        velocity := ⟨(⟨"b", 20, 0, 0, 0, "planet", 1, ⟨0, 0⟩, true⟩ : Body).velocity.x +
            (netForce 1 true
              [⟨"a", 0, 0, 0, 0, "planet", 1, ⟨0, 0⟩, true⟩,
               ⟨"b", 20, 0, 0, 0, "planet", 1, ⟨0, 0⟩, true⟩]
              ⟨"b", 20, 0, 0, 0, "planet", 1, ⟨0, 0⟩, true⟩).x /
              (⟨"b", 20, 0, 0, 0, "planet", 1, ⟨0, 0⟩, true⟩ : Body).mass * (1 * 1),
          (⟨"b", 20, 0, 0, 0, "planet", 1, ⟨0, 0⟩, true⟩ : Body).velocity.y +
            (netForce 1 true
              [⟨"a", 0, 0, 0, 0, "planet", 1, ⟨0, 0⟩, true⟩,
               ⟨"b", 20, 0, 0, 0, "planet", 1, ⟨0, 0⟩, true⟩]
              ⟨"b", 20, 0, 0, 0, "planet", 1, ⟨0, 0⟩, true⟩).y /
              (⟨"b", 20, 0, 0, 0, "planet", 1, ⟨0, 0⟩, true⟩ : Body).mass * (1 * 1)⟩ } :=
  claim1_semi_implicit_euler 1 true 1 1
    [⟨"a", 0, 0, 0, 0, "planet", 1, ⟨0, 0⟩, true⟩,
     ⟨"b", 20, 0, 0, 0, "planet", 1, ⟨0, 0⟩, true⟩]
    (by decide) 1 ⟨"b", 20, 0, 0, 0, "planet", 1, ⟨0, 0⟩, true⟩
    rfl rfl (by decide)

theorem sq_norm_div (c dx dy A : ℝ) (hA : 0 < A) (hsum : dx * dx + dy * dy = A) :
    (c * dx / Real.sqrt A) ^ 2 + (c * dy / Real.sqrt A) ^ 2 = c ^ 2 := by
  have hs : Real.sqrt A ≠ 0 := ne_of_gt (Real.sqrt_pos.mpr hA)
  field_simp
  linear_combination c ^ 2 * hsum

/-- Claim C2 (amended): for two distinct planet items whose squared
distance `d2` *between their stored top-left positions* is at or above
the proximity threshold 100, the live integrator's pairwise force on
`planet` from `other` is a positive multiple of the vector from
`planet`'s position to `other`'s position (attractive along that line)
with squared magnitude `(G * m1 * m2 / d2)^2`.  (The amendment replaces
the claim's "center distance / line connecting centers" by the stored
top-left positions, which is what the integrator actually uses — for
equal-sized bodies the two coincide, but not in general, see the
counterexample.) -/
theorem claim2_force_law (G : ℝ) (centralPlanet planet other : Body)
    (hid : other.id ≠ planet.id) (hty : other.type = "planet")
    (hd2 : 100 ≤ (other.x - planet.x) * (other.x - planet.x) +
      (other.y - planet.y) * (other.y - planet.y))
    (hG : 0 < G) (hm1 : 0 < planet.mass) (hm2 : 0 < other.mass) :
    forceContribution G true centralPlanet planet other =
      ⟨G * planet.mass * other.mass /
          ((other.x - planet.x) * (other.x - planet.x) +
            (other.y - planet.y) * (other.y - planet.y)) /
          Real.sqrt ((other.x - planet.x) * (other.x - planet.x) +
            (other.y - planet.y) * (other.y - planet.y)) * (other.x - planet.x),
       G * planet.mass * other.mass /
          ((other.x - planet.x) * (other.x - planet.x) +
            (other.y - planet.y) * (other.y - planet.y)) /
          Real.sqrt ((other.x - planet.x) * (other.x - planet.x) +
            (other.y - planet.y) * (other.y - planet.y)) * (other.y - planet.y)⟩ ∧
    0 < G * planet.mass * other.mass /
          ((other.x - planet.x) * (other.x - planet.x) +
            (other.y - planet.y) * (other.y - planet.y)) /
          Real.sqrt ((other.x - planet.x) * (other.x - planet.x) +
            (other.y - planet.y) * (other.y - planet.y)) ∧
    (forceContribution G true centralPlanet planet other).x ^ 2 +
      (forceContribution G true centralPlanet planet other).y ^ 2 =
      (G * planet.mass * other.mass /
        ((other.x - planet.x) * (other.x - planet.x) +
         (other.y - planet.y) * (other.y - planet.y))) ^ 2 := by
  have h2 : (0 : ℝ) < (other.x - planet.x) * (other.x - planet.x) +
      (other.y - planet.y) * (other.y - planet.y) := lt_of_lt_of_le (by norm_num) hd2
  have hs : (0 : ℝ) < Real.sqrt ((other.x - planet.x) * (other.x - planet.x) +
      (other.y - planet.y) * (other.y - planet.y)) := Real.sqrt_pos.mpr h2
  have hsq : Real.sqrt ((other.x - planet.x) * (other.x - planet.x) +
        (other.y - planet.y) * (other.y - planet.y)) *
      Real.sqrt ((other.x - planet.x) * (other.x - planet.x) +
        (other.y - planet.y) * (other.y - planet.y)) =
      (other.x - planet.x) * (other.x - planet.x) +
        (other.y - planet.y) * (other.y - planet.y) := Real.mul_self_sqrt h2.le
  have hred : forceContribution G true centralPlanet planet other =
      ⟨G * planet.mass * other.mass /
          ((other.x - planet.x) * (other.x - planet.x) +
           (other.y - planet.y) * (other.y - planet.y)) * (other.x - planet.x) /
         Real.sqrt ((other.x - planet.x) * (other.x - planet.x) +
           (other.y - planet.y) * (other.y - planet.y)),
       G * planet.mass * other.mass /
          ((other.x - planet.x) * (other.x - planet.x) +
           (other.y - planet.y) * (other.y - planet.y)) * (other.y - planet.y) /
         Real.sqrt ((other.x - planet.x) * (other.x - planet.x) +
           (other.y - planet.y) * (other.y - planet.y))⟩ := by
    unfold forceContribution
    rw [if_neg (by simp [hid, hty]), if_neg (by simp), if_neg (not_lt.mpr hd2)]
  refine ⟨?_, ?_, ?_⟩
  · rw [hred]
    simp only [Vec2.mk.injEq]
    constructor <;> ring
  · exact div_pos (div_pos (by positivity) h2) hs
  · rw [hred]
    exact sq_norm_div
      (G * planet.mass * other.mass /
        ((other.x - planet.x) * (other.x - planet.x) +
         (other.y - planet.y) * (other.y - planet.y)))
      (other.x - planet.x) (other.y - planet.y)
      ((other.x - planet.x) * (other.x - planet.x) +
       (other.y - planet.y) * (other.y - planet.y)) h2 rfl

/-- Claim C2 counterexample: bodies of different sizes.  Body `a` has
zero extent with center `(0, 0)`; body `b` sits at top-left `(30, 0)`
with height `80`, so its center is `(30, 40)` and the squared *center*
distance is `2500 ≥ 100` with unit center direction `(30/50, 40/50)`.
The claim then demands force `(1/2500)·(30/50, 40/50)`, whose `y`
component is positive — but the integrator computes with the top-left
difference `(30, 0)` and produces a force with `y` component exactly
`0`.  So the force is neither of the claimed magnitude nor along the
line connecting the centers. -/
theorem claim2_counterexample :
    forceContribution 1 true ⟨"a", 0, 0, 0, 0, "planet", 1, ⟨0, 0⟩, true⟩
        ⟨"a", 0, 0, 0, 0, "planet", 1, ⟨0, 0⟩, true⟩
        ⟨"b", 30, 0, 0, 80, "planet", 1, ⟨0, 0⟩, true⟩ ≠
      ⟨1 * 1 * 1 / 2500 * (30 / 50), 1 * 1 * 1 / 2500 * (40 / 50)⟩ := by
  intro h
  have hy := congrArg Vec2.y h
  have hne : ("b" : String) ≠ "a" := by decide
  simp only [forceContribution] at hy
  norm_num [hne] at hy

/-- Claim C2 witness: the amended theorem applied to two unit-mass
planets whose stored positions are `(0, 0)` and `(10, 0)` (squared
distance exactly the threshold 100). -/
theorem claim2_witness :
    forceContribution 1 true ⟨"a", 0, 0, 0, 0, "planet", 1, ⟨0, 0⟩, true⟩
        ⟨"a", 0, 0, 0, 0, "planet", 1, ⟨0, 0⟩, true⟩
        ⟨"b", 10, 0, 0, 0, "planet", 1, ⟨0, 0⟩, true⟩ =
      ⟨1 * 1 * 1 / ((10 - 0) * (10 - 0) + (0 - 0) * (0 - 0)) /
          Real.sqrt ((10 - 0) * (10 - 0) + (0 - 0) * (0 - 0)) * (10 - 0),
       1 * 1 * 1 / ((10 - 0) * (10 - 0) + (0 - 0) * (0 - 0)) /
          Real.sqrt ((10 - 0) * (10 - 0) + (0 - 0) * (0 - 0)) * (0 - 0)⟩ ∧
    0 < 1 * 1 * 1 / ((10 - 0) * (10 - 0) + (0 - 0) * (0 - 0)) /
          Real.sqrt ((10 - 0) * (10 - 0) + (0 - 0) * (0 - 0)) ∧
    (forceContribution 1 true ⟨"a", 0, 0, 0, 0, "planet", 1, ⟨0, 0⟩, true⟩
        ⟨"a", 0, 0, 0, 0, "planet", 1, ⟨0, 0⟩, true⟩
        ⟨"b", 10, 0, 0, 0, "planet", 1, ⟨0, 0⟩, true⟩).x ^ 2 +
      (forceContribution 1 true ⟨"a", 0, 0, 0, 0, "planet", 1, ⟨0, 0⟩, true⟩
        ⟨"a", 0, 0, 0, 0, "planet", 1, ⟨0, 0⟩, true⟩
        ⟨"b", 10, 0, 0, 0, "planet", 1, ⟨0, 0⟩, true⟩).y ^ 2 =
      (1 * 1 * 1 / ((10 - 0) * (10 - 0) + (0 - 0) * (0 - 0))) ^ 2 :=
  claim2_force_law 1 ⟨"a", 0, 0, 0, 0, "planet", 1, ⟨0, 0⟩, true⟩
    ⟨"a", 0, 0, 0, 0, "planet", 1, ⟨0, 0⟩, true⟩
    ⟨"b", 10, 0, 0, 0, "planet", 1, ⟨0, 0⟩, true⟩
    (by decide) rfl (by norm_num) (by norm_num) (by norm_num) (by norm_num)

theorem perp_unit_sq (m dx dy : ℝ) (hpos : 0 < dx * dx + dy * dy) :
    (-(dy / Real.sqrt (dx * dx + dy * dy)) * m) ^ 2 +
      (dx / Real.sqrt (dx * dx + dy * dy) * m) ^ 2 = m ^ 2 := by
  have hs : Real.sqrt (dx * dx + dy * dy) ≠ 0 := ne_of_gt (Real.sqrt_pos.mpr hpos)
  field_simp
  ring

/-- Claim C3: whenever a body is created in orbital mode with a primary
present (`handleClick`), or its `isOrbital` flag is toggled on with at
least two items present (`togglePlanetOrbitalMode`), its velocity is
set to `orbitalVelocity`: the perpendicular `(-ny, nx)` of the unit
radius vector toward the primary — the same rotational sense for every
body — scaled by `sqrt (G * massPrimary / distanceToPrimary)`;
consequently the squared speed is `G * M / d` (so the speed is
`sqrt (G * M / d)`) and the dot product of the velocity with the radius
vector is exactly `0`. -/
theorem claim3_orbital_velocity :
    (∀ (G rx ry : ℝ) (centralPlanet : Body) (rest : List Body) (newItem : Body),
      newItem.isOrbital = true →
      handleClickVelocity G rx ry (centralPlanet :: rest) newItem =
        orbitalVelocity G centralPlanet newItem) ∧
    (∀ (G rx ry : ℝ) (planetId : String) (centralPlanet : Body) (rest : List Body)
      (i : ℕ) (item : Body), rest ≠ [] → (centralPlanet :: rest)[i]? = some item →
      item.id = planetId → item.type = "planet" → item.isOrbital = false →
      (togglePlanetOrbitalMode G rx ry planetId (centralPlanet :: rest))[i]? =
        some { item with
               isOrbital := true
               velocity := orbitalVelocity G centralPlanet
                 ({ item with isOrbital := true } : Body) }) ∧
    (∀ (G : ℝ) (centralPlanet planet : Body),
      (orbitalVelocity G centralPlanet planet).x *
          ((centralPlanet.x + centralPlanet.width / 2) - (planet.x + planet.width / 2)) +
        (orbitalVelocity G centralPlanet planet).y *
          ((centralPlanet.y + centralPlanet.height / 2) - (planet.y + planet.height / 2)) =
        0) ∧
    (∀ (G : ℝ) (centralPlanet planet : Body), 0 ≤ G → 0 < centralPlanet.mass →
      (((centralPlanet.x + centralPlanet.width / 2) - (planet.x + planet.width / 2) ≠ 0 ∨
        (centralPlanet.y + centralPlanet.height / 2) - (planet.y + planet.height / 2) ≠ 0) →
      (orbitalVelocity G centralPlanet planet).x ^ 2 +
        (orbitalVelocity G centralPlanet planet).y ^ 2 =
        G * centralPlanet.mass / Real.sqrt
          (((centralPlanet.x + centralPlanet.width / 2) - (planet.x + planet.width / 2)) *
            ((centralPlanet.x + centralPlanet.width / 2) - (planet.x + planet.width / 2)) +
           ((centralPlanet.y + centralPlanet.height / 2) - (planet.y + planet.height / 2)) *
            ((centralPlanet.y + centralPlanet.height / 2) - (planet.y + planet.height / 2))) ∧
      Real.sqrt ((orbitalVelocity G centralPlanet planet).x ^ 2 +
        (orbitalVelocity G centralPlanet planet).y ^ 2) =
        Real.sqrt (G * centralPlanet.mass / Real.sqrt
          (((centralPlanet.x + centralPlanet.width / 2) - (planet.x + planet.width / 2)) *
            ((centralPlanet.x + centralPlanet.width / 2) - (planet.x + planet.width / 2)) +
           ((centralPlanet.y + centralPlanet.height / 2) - (planet.y + planet.height / 2)) *
            ((centralPlanet.y + centralPlanet.height / 2) - (planet.y + planet.height / 2)))))) := by
  refine ⟨?_, ?_, ?_, ?_⟩
  · intro G rx ry centralPlanet rest newItem ho
    unfold handleClickVelocity
    rw [if_pos ⟨ho, by simp⟩]
  · intro G rx ry planetId centralPlanet rest i item hrest hib hid hty hfalse
    have hl : 1 < (centralPlanet :: rest).length := by
      have := List.length_pos.mpr hrest
      simp only [List.length_cons]
      omega
    unfold togglePlanetOrbitalMode
    rw [List.getElem?_map, hib, Option.map_some']
    simp only [hid, hty, and_self, if_true, hfalse, Bool.not_false]
    rw [if_pos (show True ∧ 1 < (centralPlanet :: rest).length from ⟨trivial, hl⟩)]
  · intro G centralPlanet planet
    simp only [orbitalVelocity]
    ring
  · intro G centralPlanet planet hG hM hd
    have hpos : 0 <
        ((centralPlanet.x + centralPlanet.width / 2) - (planet.x + planet.width / 2)) *
          ((centralPlanet.x + centralPlanet.width / 2) - (planet.x + planet.width / 2)) +
        ((centralPlanet.y + centralPlanet.height / 2) - (planet.y + planet.height / 2)) *
          ((centralPlanet.y + centralPlanet.height / 2) - (planet.y + planet.height / 2)) := by
      rcases hd with h | h
      · nlinarith [mul_self_nonneg
          ((centralPlanet.y + centralPlanet.height / 2) - (planet.y + planet.height / 2)),
          mul_self_pos.mpr h]
      · nlinarith [mul_self_nonneg
          ((centralPlanet.x + centralPlanet.width / 2) - (planet.x + planet.width / 2)),
          mul_self_pos.mpr h]
    have hsq : (orbitalVelocity G centralPlanet planet).x ^ 2 +
        (orbitalVelocity G centralPlanet planet).y ^ 2 =
        G * centralPlanet.mass / Real.sqrt
          (((centralPlanet.x + centralPlanet.width / 2) - (planet.x + planet.width / 2)) *
            ((centralPlanet.x + centralPlanet.width / 2) - (planet.x + planet.width / 2)) +
           ((centralPlanet.y + centralPlanet.height / 2) - (planet.y + planet.height / 2)) *
            ((centralPlanet.y + centralPlanet.height / 2) - (planet.y + planet.height / 2))) := by
      have hstep := perp_unit_sq
        (Real.sqrt (G * centralPlanet.mass / Real.sqrt
          (((centralPlanet.x + centralPlanet.width / 2) - (planet.x + planet.width / 2)) *
            ((centralPlanet.x + centralPlanet.width / 2) - (planet.x + planet.width / 2)) +
           ((centralPlanet.y + centralPlanet.height / 2) - (planet.y + planet.height / 2)) *
            ((centralPlanet.y + centralPlanet.height / 2) - (planet.y + planet.height / 2)))))
        ((centralPlanet.x + centralPlanet.width / 2) - (planet.x + planet.width / 2))
        ((centralPlanet.y + centralPlanet.height / 2) - (planet.y + planet.height / 2)) hpos
      have h0 : (0 : ℝ) ≤ G * centralPlanet.mass / Real.sqrt
          (((centralPlanet.x + centralPlanet.width / 2) - (planet.x + planet.width / 2)) *
            ((centralPlanet.x + centralPlanet.width / 2) - (planet.x + planet.width / 2)) +
           ((centralPlanet.y + centralPlanet.height / 2) - (planet.y + planet.height / 2)) *
            ((centralPlanet.y + centralPlanet.height / 2) - (planet.y + planet.height / 2))) :=
        div_nonneg (mul_nonneg hG hM.le) (Real.sqrt_nonneg _)
      calc (orbitalVelocity G centralPlanet planet).x ^ 2 +
          (orbitalVelocity G centralPlanet planet).y ^ 2 = _ := by
            simp only [orbitalVelocity]
            exact hstep
        _ = _ := Real.sq_sqrt h0
    exact ⟨hsq, congrArg Real.sqrt hsq⟩

/-- Claim C3 witness: the theorem applied to a concrete primary of mass
100 and a body at distance 40 along x, covering the creation flow, the
toggle-on flow, the zero dot product and the orbital speed. -/
theorem claim3_witness :
    handleClickVelocity 2 0 0 [⟨"a", 0, 0, 10, 10, "planet", 100, ⟨0, 0⟩, true⟩]
        ⟨"b", 40, 0, 10, 10, "planet", 1, ⟨0, 0⟩, true⟩ =
      orbitalVelocity 2 ⟨"a", 0, 0, 10, 10, "planet", 100, ⟨0, 0⟩, true⟩
        ⟨"b", 40, 0, 10, 10, "planet", 1, ⟨0, 0⟩, true⟩ ∧
    (togglePlanetOrbitalMode 2 0 0 "b"
        [⟨"a", 0, 0, 10, 10, "planet", 100, ⟨0, 0⟩, true⟩,
         ⟨"b", 40, 0, 10, 10, "planet", 1, ⟨0, 0⟩, false⟩])[1]? =
      some { (⟨"b", 40, 0, 10, 10, "planet", 1, ⟨0, 0⟩, false⟩ : Body) with
             isOrbital := true
             velocity := orbitalVelocity 2 ⟨"a", 0, 0, 10, 10, "planet", 100, ⟨0, 0⟩, true⟩
               ({ (⟨"b", 40, 0, 10, 10, "planet", 1, ⟨0, 0⟩, false⟩ : Body) with
                  isOrbital := true } : Body) } ∧
    (orbitalVelocity 2 ⟨"a", 0, 0, 10, 10, "planet", 100, ⟨0, 0⟩, true⟩
          ⟨"b", 40, 0, 10, 10, "planet", 1, ⟨0, 0⟩, true⟩).x *
        ((0 + 10 / 2) - (40 + 10 / 2)) +
      (orbitalVelocity 2 ⟨"a", 0, 0, 10, 10, "planet", 100, ⟨0, 0⟩, true⟩
          ⟨"b", 40, 0, 10, 10, "planet", 1, ⟨0, 0⟩, true⟩).y *
        ((0 + 10 / 2) - (0 + 10 / 2)) = 0 ∧
    (orbitalVelocity 2 ⟨"a", 0, 0, 10, 10, "planet", 100, ⟨0, 0⟩, true⟩
          ⟨"b", 40, 0, 10, 10, "planet", 1, ⟨0, 0⟩, true⟩).x ^ 2 +
      (orbitalVelocity 2 ⟨"a", 0, 0, 10, 10, "planet", 100, ⟨0, 0⟩, true⟩
          ⟨"b", 40, 0, 10, 10, "planet", 1, ⟨0, 0⟩, true⟩).y ^ 2 =
      2 * 100 / Real.sqrt
        (((0 + 10 / 2) - (40 + 10 / 2)) * ((0 + 10 / 2) - (40 + 10 / 2)) +
         ((0 + 10 / 2) - (0 + 10 / 2)) * ((0 + 10 / 2) - (0 + 10 / 2))) :=
  ⟨claim3_orbital_velocity.1 2 0 0 ⟨"a", 0, 0, 10, 10, "planet", 100, ⟨0, 0⟩, true⟩ []
      ⟨"b", 40, 0, 10, 10, "planet", 1, ⟨0, 0⟩, true⟩ rfl,
   claim3_orbital_velocity.2.1 2 0 0 "b" ⟨"a", 0, 0, 10, 10, "planet", 100, ⟨0, 0⟩, true⟩
      [⟨"b", 40, 0, 10, 10, "planet", 1, ⟨0, 0⟩, false⟩] 1
      ⟨"b", 40, 0, 10, 10, "planet", 1, ⟨0, 0⟩, false⟩ (by simp) rfl rfl rfl rfl,
   claim3_orbital_velocity.2.2.1 2 ⟨"a", 0, 0, 10, 10, "planet", 100, ⟨0, 0⟩, true⟩
      ⟨"b", 40, 0, 10, 10, "planet", 1, ⟨0, 0⟩, true⟩,
   (claim3_orbital_velocity.2.2.2 2 ⟨"a", 0, 0, 10, 10, "planet", 100, ⟨0, 0⟩, true⟩
      ⟨"b", 40, 0, 10, 10, "planet", 1, ⟨0, 0⟩, true⟩ (by norm_num) (by norm_num)
      (Or.inl (by norm_num))).1⟩

/-- Claim C5: with `planetaryForces = false` the only force source is
the central (first) body — both in the live integrator and in the
predictor's force field the contribution from any source whose id
differs from the central id is the zero vector, and the integrator's
net force over a roster with unique ids collapses to the central
body's contribution alone; with `planetaryForces = true` the mutual
force between any two distinct planets (positive `G` and masses) is
nonzero whenever the respective squared distance is at or beyond the
respective proximity threshold. -/
theorem claim5_planetary_forces_flag :
    (∀ (G : ℝ) (centralPlanet planet other : Body), other.id ≠ centralPlanet.id →
      forceContribution G false centralPlanet planet other = ⟨0, 0⟩) ∧
    (∀ (G : ℝ) (centralPlanet planet other : Body) (posX posY : ℝ),
      other.id ≠ centralPlanet.id →
      predForceContribution G false centralPlanet planet other posX posY = ⟨0, 0⟩) ∧
    (∀ (G : ℝ) (centralPlanet : Body) (rest : List Body) (planet : Body),
      (∀ b ∈ rest, b.id ≠ centralPlanet.id) →
      netForce G false (centralPlanet :: rest) planet =
        forceContribution G false centralPlanet planet centralPlanet) ∧
    (∀ (G : ℝ) (centralPlanet planet other : Body), other.id ≠ planet.id →
      other.type = "planet" → 0 < G → 0 < planet.mass → 0 < other.mass →
      100 ≤ (other.x - planet.x) * (other.x - planet.x) +
        (other.y - planet.y) * (other.y - planet.y) →
      forceContribution G true centralPlanet planet other ≠ ⟨0, 0⟩) ∧
    (∀ (G : ℝ) (centralPlanet planet other : Body) (posX posY : ℝ),
      other.id ≠ planet.id → 0 < G → 0 < planet.mass → 0 < other.mass →
      0 < planet.width →
      max other.width planet.width * 2 ≤
        (other.x + other.width / 2 - posX) * (other.x + other.width / 2 - posX) +
        (other.y + other.height / 2 - posY) * (other.y + other.height / 2 - posY) →
      predForceContribution G true centralPlanet planet other posX posY ≠ ⟨0, 0⟩) := by
  refine ⟨?_, ?_, ?_, ?_, ?_⟩
  · intro G centralPlanet planet other hne
    unfold forceContribution
    split_ifs with h1 h2 h3 <;> try rfl
    exact absurd ⟨rfl, hne⟩ h2
  · intro G centralPlanet planet other posX posY hne
    unfold predForceContribution
    split_ifs with h1 h2 h3 <;> try rfl
    exact absurd ⟨rfl, hne⟩ h2
  · intro G centralPlanet rest planet hrest
    unfold netForce
    simp only [List.map_cons, List.foldl_cons, Vec2.zero_vec_add]
    refine foldl_add_zeros (rest.map fun other =>
      forceContribution G false centralPlanet planet other) _ ?_
    intro v hv
    obtain ⟨b, hb, rfl⟩ := List.mem_map.mp hv
    unfold forceContribution
    split_ifs with h1 h2 h3 <;> try rfl
    exact absurd ⟨rfl, hrest b hb⟩ h2
  · intro G centralPlanet planet other hid hty hG hm1 hm2 hd2
    have h2 : (0 : ℝ) < (other.x - planet.x) * (other.x - planet.x) +
        (other.y - planet.y) * (other.y - planet.y) := lt_of_lt_of_le (by norm_num) hd2
    have hs : (0 : ℝ) < Real.sqrt ((other.x - planet.x) * (other.x - planet.x) +
        (other.y - planet.y) * (other.y - planet.y)) := Real.sqrt_pos.mpr h2
    have hf : (0 : ℝ) < G * planet.mass * other.mass /
        ((other.x - planet.x) * (other.x - planet.x) +
         (other.y - planet.y) * (other.y - planet.y)) := by positivity
    intro heq
    rw [forceContribution, if_neg (by simp [hid, hty]), if_neg (by simp),
      if_neg (not_lt.mpr hd2)] at heq
    simp only [Vec2.mk.injEq] at heq
    have hdx : other.x - planet.x = 0 := by
      rcases div_eq_zero_iff.mp heq.1 with h | h
      · rcases mul_eq_zero.mp h with h' | h'
        · exact absurd h' (ne_of_gt hf)
        · exact h'
      · exact absurd h (ne_of_gt hs)
    have hdy : other.y - planet.y = 0 := by
      rcases div_eq_zero_iff.mp heq.2 with h | h
      · rcases mul_eq_zero.mp h with h' | h'
        · exact absurd h' (ne_of_gt hf)
        · exact h'
      · exact absurd h (ne_of_gt hs)
    rw [hdx, hdy] at hd2
    norm_num at hd2
  · intro G centralPlanet planet other posX posY hid hG hm1 hm2 hw hd2
    have hmax : (0 : ℝ) < max other.width planet.width * 2 := by
      have := lt_of_lt_of_le hw (le_max_right other.width planet.width)
      linarith
    have h2 : (0 : ℝ) < (other.x + other.width / 2 - posX) *
          (other.x + other.width / 2 - posX) +
        (other.y + other.height / 2 - posY) * (other.y + other.height / 2 - posY) :=
      lt_of_lt_of_le hmax hd2
    have hs : (0 : ℝ) < Real.sqrt ((other.x + other.width / 2 - posX) *
          (other.x + other.width / 2 - posX) +
        (other.y + other.height / 2 - posY) * (other.y + other.height / 2 - posY)) :=
      Real.sqrt_pos.mpr h2
    have hf : (0 : ℝ) < G * planet.mass * other.mass /
        ((other.x + other.width / 2 - posX) * (other.x + other.width / 2 - posX) +
         (other.y + other.height / 2 - posY) * (other.y + other.height / 2 - posY)) := by
      positivity
    intro heq
    rw [predForceContribution, if_neg hid, if_neg (by simp),
      if_neg (not_lt.mpr hd2)] at heq
    simp only [Vec2.mk.injEq] at heq
    have hdx : other.x + other.width / 2 - posX = 0 := by
      rcases div_eq_zero_iff.mp heq.1 with h | h
      · rcases mul_eq_zero.mp h with h' | h'
        · exact absurd h' (ne_of_gt hf)
        · exact h'
      · exact absurd h (ne_of_gt hs)
    have hdy : other.y + other.height / 2 - posY = 0 := by
      rcases div_eq_zero_iff.mp heq.2 with h | h
      · rcases mul_eq_zero.mp h with h' | h'
        · exact absurd h' (ne_of_gt hf)
        · exact h'
      · exact absurd h (ne_of_gt hs)
    rw [hdx, hdy] at hd2
    norm_num at hd2
    linarith

/-- Claim C5 witness: the theorem instantiated on a concrete three-body
roster — with the flag off, the non-primary pair exerts zero force on
each other and the net force collapses to the central contribution;
with the flag on, the mutual force between two non-primary planets
beyond the thresholds is nonzero in both force fields. -/
theorem claim5_witness :
    forceContribution 1 false ⟨"a", 0, 0, 10, 10, "planet", 5, ⟨0, 0⟩, true⟩
        ⟨"c", 0, 40, 10, 10, "planet", 1, ⟨0, 0⟩, true⟩
        ⟨"b", 40, 0, 10, 10, "planet", 1, ⟨0, 0⟩, true⟩ = ⟨0, 0⟩ ∧
    predForceContribution 1 false ⟨"a", 0, 0, 10, 10, "planet", 5, ⟨0, 0⟩, true⟩
        ⟨"c", 0, 40, 10, 10, "planet", 1, ⟨0, 0⟩, true⟩
        ⟨"b", 40, 0, 10, 10, "planet", 1, ⟨0, 0⟩, true⟩ 5 45 = ⟨0, 0⟩ ∧
    netForce 1 false
        [⟨"a", 0, 0, 10, 10, "planet", 5, ⟨0, 0⟩, true⟩,
         ⟨"b", 40, 0, 10, 10, "planet", 1, ⟨0, 0⟩, true⟩]
        ⟨"c", 0, 40, 10, 10, "planet", 1, ⟨0, 0⟩, true⟩ =
      forceContribution 1 false ⟨"a", 0, 0, 10, 10, "planet", 5, ⟨0, 0⟩, true⟩
        ⟨"c", 0, 40, 10, 10, "planet", 1, ⟨0, 0⟩, true⟩
        ⟨"a", 0, 0, 10, 10, "planet", 5, ⟨0, 0⟩, true⟩ ∧
    forceContribution 1 true ⟨"a", 0, 0, 10, 10, "planet", 5, ⟨0, 0⟩, true⟩
        ⟨"c", 0, 40, 10, 10, "planet", 1, ⟨0, 0⟩, true⟩
        ⟨"b", 40, 0, 10, 10, "planet", 1, ⟨0, 0⟩, true⟩ ≠ ⟨0, 0⟩ ∧
    predForceContribution 1 true ⟨"a", 0, 0, 10, 10, "planet", 5, ⟨0, 0⟩, true⟩
        ⟨"c", 0, 40, 10, 10, "planet", 1, ⟨0, 0⟩, true⟩
        ⟨"b", 40, 0, 10, 10, "planet", 1, ⟨0, 0⟩, true⟩ 5 45 ≠ ⟨0, 0⟩ :=
  ⟨claim5_planetary_forces_flag.1 1 ⟨"a", 0, 0, 10, 10, "planet", 5, ⟨0, 0⟩, true⟩
      ⟨"c", 0, 40, 10, 10, "planet", 1, ⟨0, 0⟩, true⟩
      ⟨"b", 40, 0, 10, 10, "planet", 1, ⟨0, 0⟩, true⟩ (by decide),
   claim5_planetary_forces_flag.2.1 1 ⟨"a", 0, 0, 10, 10, "planet", 5, ⟨0, 0⟩, true⟩
      ⟨"c", 0, 40, 10, 10, "planet", 1, ⟨0, 0⟩, true⟩
      ⟨"b", 40, 0, 10, 10, "planet", 1, ⟨0, 0⟩, true⟩ 5 45 (by decide),
   claim5_planetary_forces_flag.2.2.1 1 ⟨"a", 0, 0, 10, 10, "planet", 5, ⟨0, 0⟩, true⟩
      [⟨"b", 40, 0, 10, 10, "planet", 1, ⟨0, 0⟩, true⟩]
      ⟨"c", 0, 40, 10, 10, "planet", 1, ⟨0, 0⟩, true⟩ (by
        intro b hb
        rw [List.mem_singleton] at hb
        subst hb
        decide),
   claim5_planetary_forces_flag.2.2.2.1 1 ⟨"a", 0, 0, 10, 10, "planet", 5, ⟨0, 0⟩, true⟩
      ⟨"c", 0, 40, 10, 10, "planet", 1, ⟨0, 0⟩, true⟩
      ⟨"b", 40, 0, 10, 10, "planet", 1, ⟨0, 0⟩, true⟩ (by decide) rfl (by norm_num)
      (by norm_num) (by norm_num) (by norm_num),
   claim5_planetary_forces_flag.2.2.2.2 1 ⟨"a", 0, 0, 10, 10, "planet", 5, ⟨0, 0⟩, true⟩
      ⟨"c", 0, 40, 10, 10, "planet", 1, ⟨0, 0⟩, true⟩
      ⟨"b", 40, 0, 10, 10, "planet", 1, ⟨0, 0⟩, true⟩ 5 45 (by decide) (by norm_num)
      (by norm_num) (by norm_num) (by norm_num) (by norm_num [max_self])⟩

/-- Claim C9 (amended): for all bodies and all mass values, whenever
the squared distance that the respective routine measures is below the
respective routine's proximity threshold, the pairwise force
contribution is the exact zero vector (the guard skips the division
entirely, so no `NaN`/`Infinity` can arise).  The thresholds are NOT a
single shared constant (see the counterexample): the live integrator
compares the squared top-left distance against the fixed constant
`100`, while the predictor compares the squared center distance
against `max otherWidth planetWidth * 2`. -/
theorem claim9_proximity_zero :
    (∀ (G : ℝ) (planetaryForces : Bool) (centralPlanet planet other : Body),
      (other.x - planet.x) * (other.x - planet.x) +
        (other.y - planet.y) * (other.y - planet.y) < 100 →
      forceContribution G planetaryForces centralPlanet planet other = ⟨0, 0⟩) ∧
    (∀ (G : ℝ) (planetaryForces : Bool) (centralPlanet planet other : Body)
      (posX posY : ℝ),
      (other.x + other.width / 2 - posX) * (other.x + other.width / 2 - posX) +
        (other.y + other.height / 2 - posY) * (other.y + other.height / 2 - posY) <
        max other.width planet.width * 2 →
      predForceContribution G planetaryForces centralPlanet planet other posX posY =
        ⟨0, 0⟩) := by
  constructor
  · intro G planetaryForces centralPlanet planet other hlt
    unfold forceContribution
    split_ifs with h1 h2 <;> first | rfl | exact if_pos hlt
  · intro G planetaryForces centralPlanet planet other posX posY hlt
    unfold predForceContribution
    split_ifs with h1 h2 <;> first | rfl | exact if_pos hlt

/-- Claim C9 counterexample: the two routines do not share one
proximity threshold.  Two 150-wide planets whose positions (and, the
widths being equal, centers) differ by `(10, 10)` — squared distance
`200` — get a nonzero force from the live integrator (threshold `100`)
while the predictor's force field at the same geometry clamps the
contribution to the zero vector (threshold
`max 150 150 * 2 = 300`). -/
theorem claim9_counterexample :
    forceContribution 1 true ⟨"a", 0, 0, 150, 150, "planet", 1, ⟨0, 0⟩, true⟩
        ⟨"a", 0, 0, 150, 150, "planet", 1, ⟨0, 0⟩, true⟩
        ⟨"b", 10, 10, 150, 150, "planet", 1, ⟨0, 0⟩, true⟩ ≠ ⟨0, 0⟩ ∧
    predForceContribution 1 true ⟨"a", 0, 0, 150, 150, "planet", 1, ⟨0, 0⟩, true⟩
        ⟨"a", 0, 0, 150, 150, "planet", 1, ⟨0, 0⟩, true⟩
        ⟨"b", 10, 10, 150, 150, "planet", 1, ⟨0, 0⟩, true⟩ 75 75 = ⟨0, 0⟩ := by
  constructor
  · exact claim5_planetary_forces_flag.2.2.2.1 1
      ⟨"a", 0, 0, 150, 150, "planet", 1, ⟨0, 0⟩, true⟩
      ⟨"a", 0, 0, 150, 150, "planet", 1, ⟨0, 0⟩, true⟩
      ⟨"b", 10, 10, 150, 150, "planet", 1, ⟨0, 0⟩, true⟩ (by decide) rfl (by norm_num)
      (by norm_num) (by norm_num) (by norm_num)
  · exact claim9_proximity_zero.2 1 true
      ⟨"a", 0, 0, 150, 150, "planet", 1, ⟨0, 0⟩, true⟩
      ⟨"a", 0, 0, 150, 150, "planet", 1, ⟨0, 0⟩, true⟩
      ⟨"b", 10, 10, 150, 150, "planet", 1, ⟨0, 0⟩, true⟩ 75 75 (by norm_num [max_self])

/-- Claim C9 witness: the amended theorem instantiated below each
routine's own threshold — squared top-left distance `25 < 100` for the
integrator, squared center distance `200 < 300 = max 150 150 * 2` for
the predictor. -/
theorem claim9_witness :
    forceContribution 1 true ⟨"a", 0, 0, 150, 150, "planet", 1, ⟨0, 0⟩, true⟩
        ⟨"a", 0, 0, 150, 150, "planet", 1, ⟨0, 0⟩, true⟩
        ⟨"b", 3, 4, 150, 150, "planet", 1, ⟨0, 0⟩, true⟩ = ⟨0, 0⟩ ∧
    predForceContribution 1 true ⟨"a", 0, 0, 150, 150, "planet", 1, ⟨0, 0⟩, true⟩
        ⟨"a", 0, 0, 150, 150, "planet", 1, ⟨0, 0⟩, true⟩
        ⟨"b", 10, 10, 150, 150, "planet", 1, ⟨0, 0⟩, true⟩ 75 75 = ⟨0, 0⟩ :=
  ⟨claim9_proximity_zero.1 1 true ⟨"a", 0, 0, 150, 150, "planet", 1, ⟨0, 0⟩, true⟩
      ⟨"a", 0, 0, 150, 150, "planet", 1, ⟨0, 0⟩, true⟩
      ⟨"b", 3, 4, 150, 150, "planet", 1, ⟨0, 0⟩, true⟩ (by norm_num),
   claim9_proximity_zero.2 1 true ⟨"a", 0, 0, 150, 150, "planet", 1, ⟨0, 0⟩, true⟩
      ⟨"a", 0, 0, 150, 150, "planet", 1, ⟨0, 0⟩, true⟩
      ⟨"b", 10, 10, 150, 150, "planet", 1, ⟨0, 0⟩, true⟩ 75 75 (by norm_num [max_self])⟩

theorem head?_append_left {α : Type} (l l' : List α) (h : l ≠ []) :
    (l ++ l').head? = l.head? := by
  cases l with
  | nil => exact absurd rfl h
  | cons a t => rfl

theorem orbitStep_points (G : ℝ) (planetaryForces : Bool) (allPlanets : List Body)
    (planet centralPlanet : Body) (initialPoint initialVelocity : Vec2)
    (initialVelocityMagnitude : ℝ) (i : ℕ) (st : PredState) :
    (orbitStep G planetaryForces allPlanets planet centralPlanet initialPoint
        initialVelocity initialVelocityMagnitude i st).1.points =
      st.points ++ [stepNewPoint G planetaryForces allPlanets planet st] := by
  simp only [orbitStep]
  split_ifs <;> rfl

theorem orbitLoop_shape (G : ℝ) (planetaryForces : Bool) (allPlanets : List Body)
    (planet centralPlanet : Body) (initialPoint initialVelocity : Vec2)
    (initialVelocityMagnitude : ℝ) :
    ∀ (fuel i : ℕ) (st : PredState), st.points ≠ [] →
      orbitLoop G planetaryForces allPlanets planet centralPlanet initialPoint
          initialVelocity initialVelocityMagnitude fuel i st ≠ [] ∧
      (orbitLoop G planetaryForces allPlanets planet centralPlanet initialPoint
          initialVelocity initialVelocityMagnitude fuel i st).head? = st.points.head? ∧
      (orbitLoop G planetaryForces allPlanets planet centralPlanet initialPoint
          initialVelocity initialVelocityMagnitude fuel i st).length ≤
        st.points.length + fuel := by
  intro fuel
  induction fuel with
  | zero =>
    intro i st h
    exact ⟨by simpa [orbitLoop] using h, by simp [orbitLoop], by simp [orbitLoop]⟩
  | succ n ih =>
    intro i st h
    have hpts := orbitStep_points G planetaryForces allPlanets planet centralPlanet
      initialPoint initialVelocity initialVelocityMagnitude i st
    have hne : (orbitStep G planetaryForces allPlanets planet centralPlanet initialPoint
        initialVelocity initialVelocityMagnitude i st).1.points ≠ [] := by
      rw [hpts]
      simp
    by_cases hb : (orbitStep G planetaryForces allPlanets planet centralPlanet initialPoint
        initialVelocity initialVelocityMagnitude i st).2 = true
    · refine ⟨?_, ?_, ?_⟩ <;> simp only [orbitLoop, if_pos hb]
      · exact hne
      · rw [hpts]
        exact head?_append_left st.points _ h
      · rw [hpts]
        simp only [List.length_append, List.length_cons, List.length_nil]
        omega
    · obtain ⟨ih1, ih2, ih3⟩ := ih (i + 1)
        ((orbitStep G planetaryForces allPlanets planet centralPlanet initialPoint
          initialVelocity initialVelocityMagnitude i st).1) hne
      refine ⟨?_, ?_, ?_⟩ <;> simp only [orbitLoop, if_neg hb]
      · exact ih1
      · rw [ih2, hpts]
        exact head?_append_left st.points _ h
      · refine le_trans ih3 ?_
        rw [hpts]
        simp only [List.length_append, List.length_cons, List.length_nil]
        omega

/-- Claim C7: `calculateOrbitPath` returns the empty sequence exactly
when the target's id matches the first planet's id or fewer than two
planets exist; in every other case it returns a non-empty sequence of
at most 2001 points (the hard cap of 2000 RK4 steps plus the initial
point) that begins with the target's current center position. -/
theorem claim7_orbit_path_shape (planet : Body) (allPlanets : List Body) (G : ℝ)
    (planetaryForces : Bool) :
    (calculateOrbitPath planet allPlanets G planetaryForces = [] ↔
      (allPlanets.head?.map Body.id = some planet.id ∨ allPlanets.length ≤ 1)) ∧
    (¬ (allPlanets.head?.map Body.id = some planet.id ∨ allPlanets.length ≤ 1) →
      (calculateOrbitPath planet allPlanets G planetaryForces).head? =
        some ⟨planet.x + planet.width / 2, planet.y + planet.height / 2⟩ ∧
      (calculateOrbitPath planet allPlanets G planetaryForces).length ≤ 2001) := by
  by_cases hg : allPlanets.head?.map Body.id = some planet.id ∨ allPlanets.length ≤ 1
  · refine ⟨⟨fun _ => hg, fun _ => ?_⟩, fun h => absurd hg h⟩
    unfold calculateOrbitPath
    rw [if_pos hg]
  · cases allPlanets with
    | nil => exact absurd (Or.inr (by simp)) hg
    | cons centralPlanet rest =>
      have hcalc : calculateOrbitPath planet (centralPlanet :: rest) G planetaryForces =
          orbitLoop G planetaryForces (centralPlanet :: rest) planet centralPlanet
            ⟨planet.x + planet.width / 2, planet.y + planet.height / 2⟩
            ⟨planet.velocity.x, planet.velocity.y⟩
            (Real.sqrt (planet.velocity.x * planet.velocity.x +
              planet.velocity.y * planet.velocity.y)) 2000 0
            ⟨planet.x, planet.y, planet.velocity.x, planet.velocity.y,
             [⟨planet.x + planet.width / 2, planet.y + planet.height / 2⟩], 0,
             Real.sign planet.velocity.x, Real.sign planet.velocity.y⟩ := by
        unfold calculateOrbitPath
        rw [if_neg hg]
      obtain ⟨h1, h2, h3⟩ := orbitLoop_shape G planetaryForces (centralPlanet :: rest)
        planet centralPlanet
        ⟨planet.x + planet.width / 2, planet.y + planet.height / 2⟩
        ⟨planet.velocity.x, planet.velocity.y⟩
        (Real.sqrt (planet.velocity.x * planet.velocity.x +
          planet.velocity.y * planet.velocity.y)) 2000 0
        ⟨planet.x, planet.y, planet.velocity.x, planet.velocity.y,
         [⟨planet.x + planet.width / 2, planet.y + planet.height / 2⟩], 0,
         Real.sign planet.velocity.x, Real.sign planet.velocity.y⟩ (by simp)
      refine ⟨⟨fun he => ?_, fun h => absurd h hg⟩, fun _ => ⟨?_, ?_⟩⟩
      · rw [hcalc] at he
        exact absurd he h1
      · rw [hcalc, h2]
        rfl
      · rw [hcalc]
        exact le_trans h3 (by norm_num)

/-- Claim C7 witness: on a concrete two-body world the predictor
returns `[]` when invoked on the primary, and a non-empty path of at
most 2001 points starting at the target's center when invoked on the
secondary. -/
theorem claim7_witness :
    calculateOrbitPath ⟨"a", -75, -75, 150, 150, "planet", 1000000, ⟨0, 0⟩, true⟩
        [⟨"a", -75, -75, 150, 150, "planet", 1000000, ⟨0, 0⟩, true⟩,
         ⟨"b", 200, 0, 30, 30, "planet", 1, ⟨0, 5⟩, true⟩] 1 true = [] ∧
    calculateOrbitPath ⟨"b", 200, 0, 30, 30, "planet", 1, ⟨0, 5⟩, true⟩
        [⟨"a", -75, -75, 150, 150, "planet", 1000000, ⟨0, 0⟩, true⟩,
         ⟨"b", 200, 0, 30, 30, "planet", 1, ⟨0, 5⟩, true⟩] 1 true ≠ [] ∧
    (calculateOrbitPath ⟨"b", 200, 0, 30, 30, "planet", 1, ⟨0, 5⟩, true⟩
        [⟨"a", -75, -75, 150, 150, "planet", 1000000, ⟨0, 0⟩, true⟩,
         ⟨"b", 200, 0, 30, 30, "planet", 1, ⟨0, 5⟩, true⟩] 1 true).head? =
      some ⟨200 + 30 / 2, 0 + 30 / 2⟩ ∧
    (calculateOrbitPath ⟨"b", 200, 0, 30, 30, "planet", 1, ⟨0, 5⟩, true⟩
        [⟨"a", -75, -75, 150, 150, "planet", 1000000, ⟨0, 0⟩, true⟩,
         ⟨"b", 200, 0, 30, 30, "planet", 1, ⟨0, 5⟩, true⟩] 1 true).length ≤ 2001 := by
  have hprim := (claim7_orbit_path_shape
    ⟨"a", -75, -75, 150, 150, "planet", 1000000, ⟨0, 0⟩, true⟩
    [⟨"a", -75, -75, 150, 150, "planet", 1000000, ⟨0, 0⟩, true⟩,
     ⟨"b", 200, 0, 30, 30, "planet", 1, ⟨0, 5⟩, true⟩] 1 true).1.mpr (Or.inl rfl)
  have hsec := claim7_orbit_path_shape
    ⟨"b", 200, 0, 30, 30, "planet", 1, ⟨0, 5⟩, true⟩
    [⟨"a", -75, -75, 150, 150, "planet", 1000000, ⟨0, 0⟩, true⟩,
     ⟨"b", 200, 0, 30, 30, "planet", 1, ⟨0, 5⟩, true⟩] 1 true
  have hng : ¬ (([⟨"a", -75, -75, 150, 150, "planet", 1000000, ⟨0, 0⟩, true⟩,
      ⟨"b", 200, 0, 30, 30, "planet", 1, ⟨0, 5⟩, true⟩] : List Body).head?.map Body.id =
        some (⟨"b", 200, 0, 30, 30, "planet", 1, ⟨0, 5⟩, true⟩ : Body).id ∨
      ([⟨"a", -75, -75, 150, 150, "planet", 1000000, ⟨0, 0⟩, true⟩,
        ⟨"b", 200, 0, 30, 30, "planet", 1, ⟨0, 5⟩, true⟩] : List Body).length ≤ 1) := by
    rintro (h | h)
    · simp only [List.head?_cons, Option.map_some'] at h
      exact absurd (Option.some.inj h) (by decide)
    · simp at h
  exact ⟨hprim, fun he => hng (hsec.1.mp he), (hsec.2 hng).1, (hsec.2 hng).2⟩

/-- Claim C8: during prediction, once the warm-up threshold is passed
(`50 < i`), if after the current RK4 step the distance from the new
predicted point back to the path's first point is below `planet.width
* 2`, the normalized dot product between the current and initial
velocity exceeds `0.9`, and the updated direction-change counter is at
least 4, then the loop breaks immediately and returns exactly the path
collected so far (the accumulated points plus the current point). -/
theorem claim8_loop_closure (G : ℝ) (planetaryForces : Bool) (allPlanets : List Body)
    (planet centralPlanet : Body) (initialPoint initialVelocity : Vec2)
    (initialVelocityMagnitude : ℝ) (fuel i : ℕ) (st : PredState)
    (hi : 50 < i)
    (hclose : Real.sqrt
      (((stepNewPoint G planetaryForces allPlanets planet st).x - initialPoint.x) ^ 2 +
       ((stepNewPoint G planetaryForces allPlanets planet st).y - initialPoint.y) ^ 2) <
      planet.width * 2)
    (hdot : 0.9 <
      (initialVelocity.x * (rk4Step G planetaryForces allPlanets planet st).2.x +
       initialVelocity.y * (rk4Step G planetaryForces allPlanets planet st).2.y) /
      (initialVelocityMagnitude * Real.sqrt
        ((rk4Step G planetaryForces allPlanets planet st).2.x *
          (rk4Step G planetaryForces allPlanets planet st).2.x +
         (rk4Step G planetaryForces allPlanets planet st).2.y *
          (rk4Step G planetaryForces allPlanets planet st).2.y)))
    (hdir : 4 ≤ (signUpdate st (rk4Step G planetaryForces allPlanets planet st).2.x
      (rk4Step G planetaryForces allPlanets planet st).2.y).1) :
    orbitLoop G planetaryForces allPlanets planet centralPlanet initialPoint
        initialVelocity initialVelocityMagnitude (fuel + 1) i st =
      st.points ++ [stepNewPoint G planetaryForces allPlanets planet st] := by
  have hb : (orbitStep G planetaryForces allPlanets planet centralPlanet initialPoint
      initialVelocity initialVelocityMagnitude i st).2 = true := by
    simp only [orbitStep]
    rw [if_pos hi, if_pos ⟨hclose, hdot, hdir⟩]
  have h1 : orbitLoop G planetaryForces allPlanets planet centralPlanet initialPoint
      initialVelocity initialVelocityMagnitude (fuel + 1) i st =
      (orbitStep G planetaryForces allPlanets planet centralPlanet initialPoint
        initialVelocity initialVelocityMagnitude i st).1.points := by
    simp only [orbitLoop]
    rw [if_pos hb]
  rw [h1]
  exact orbitStep_points G planetaryForces allPlanets planet centralPlanet initialPoint
    initialVelocity initialVelocityMagnitude i st

/-- Claim C8 witness: the theorem applied at a concrete loop state past
the warm-up (`i = 51`, `G = 0` so the RK4 step keeps velocity `(1,0)`
and moves the point to `(5.05, 5)`): distance back to the first point
is `0.05 < 20`, the velocity dot product is `1 > 0.9`, the
direction-change counter stays at 4, and the loop indeed stops with
the two collected points. -/
theorem claim8_witness :
    orbitLoop 0 true [] ⟨"b", 0, 0, 10, 10, "planet", 1, ⟨1, 0⟩, true⟩
        ⟨"b", 0, 0, 10, 10, "planet", 1, ⟨1, 0⟩, true⟩ ⟨5, 5⟩ ⟨1, 0⟩ 1 1 51
        ⟨0, 0, 1, 0, [⟨5, 5⟩], 4, 1, 0⟩ = [⟨5, 5⟩, ⟨5.05, 5⟩] := by
  have hrk : rk4Step 0 true [] ⟨"b", 0, 0, 10, 10, "planet", 1, ⟨1, 0⟩, true⟩
      ⟨0, 0, 1, 0, [⟨5, 5⟩], 4, 1, 0⟩ = (⟨0.05, 0⟩, ⟨1, 0⟩) := by
    simp only [rk4Step, calculateAcceleration]
    norm_num [Prod.ext_iff]
  have hnp : stepNewPoint 0 true [] ⟨"b", 0, 0, 10, 10, "planet", 1, ⟨1, 0⟩, true⟩
      ⟨0, 0, 1, 0, [⟨5, 5⟩], 4, 1, 0⟩ = ⟨5.05, 5⟩ := by
    simp only [stepNewPoint, rk4Step, calculateAcceleration]
    norm_num [Vec2.mk.injEq]
  have happ := claim8_loop_closure 0 true []
    ⟨"b", 0, 0, 10, 10, "planet", 1, ⟨1, 0⟩, true⟩
    ⟨"b", 0, 0, 10, 10, "planet", 1, ⟨1, 0⟩, true⟩ ⟨5, 5⟩ ⟨1, 0⟩ 1 0 51
    ⟨0, 0, 1, 0, [⟨5, 5⟩], 4, 1, 0⟩ (by norm_num)
    (by
      rw [hnp]
      have h20 : ((⟨"b", 0, 0, 10, 10, "planet", 1, ⟨1, 0⟩, true⟩ : Body).width * 2 : ℝ) =
          20 := by norm_num
      rw [h20, Real.sqrt_lt' (by norm_num : (0 : ℝ) < 20)]
      norm_num)
    (by
      rw [hrk]
      norm_num [Real.sqrt_one])
    (by
      rw [hrk]
      simp [signUpdate, Real.sign_of_pos, Real.sign_zero])
  rw [hnp] at happ
  simpa using happ

theorem orbitStepH_preserve (G : ℝ) (planetaryForces : Bool) (allRefs : List ℕ)
    (planetRef simRef centralRef : ℕ) (initialPoint initialVelocity : Vec2)
    (initialVelocityMagnitude : ℝ) (i : ℕ) (h : JSHeap) (tr : PredTrack) :
    (∀ r, r ≠ simRef →
      (orbitStepH G planetaryForces allRefs planetRef simRef centralRef initialPoint
        initialVelocity initialVelocityMagnitude i h tr).1.bodyAt r = h.bodyAt r) ∧
    (∀ s, s ≠ (h.bodyAt simRef).velRef →
      (orbitStepH G planetaryForces allRefs planetRef simRef centralRef initialPoint
        initialVelocity initialVelocityMagnitude i h tr).1.velAt s = h.velAt s) ∧
    (orbitStepH G planetaryForces allRefs planetRef simRef centralRef initialPoint
      initialVelocity initialVelocityMagnitude i h tr).1.nextB = h.nextB ∧
    (orbitStepH G planetaryForces allRefs planetRef simRef centralRef initialPoint
      initialVelocity initialVelocityMagnitude i h tr).1.nextV = h.nextV ∧
    ((orbitStepH G planetaryForces allRefs planetRef simRef centralRef initialPoint
      initialVelocity initialVelocityMagnitude i h tr).1.bodyAt simRef).velRef =
      (h.bodyAt simRef).velRef := by
  have hh : (orbitStepH G planetaryForces allRefs planetRef simRef centralRef initialPoint
      initialVelocity initialVelocityMagnitude i h tr).1 =
      { h with
        bodyAt := Function.update h.bodyAt simRef
          { h.bodyAt simRef with
            x := (rk4StepH G planetaryForces h allRefs planetRef simRef).1.x
            y := (rk4StepH G planetaryForces h allRefs planetRef simRef).1.y }
        velAt := Function.update h.velAt (h.bodyAt simRef).velRef
          (rk4StepH G planetaryForces h allRefs planetRef simRef).2 } := by
    simp only [orbitStepH]
    split_ifs <;> rfl
  rw [hh]
  refine ⟨?_, ?_, rfl, rfl, ?_⟩
  · intro r hrne
    exact Function.update_noteq hrne _ _
  · intro s hsne
    exact Function.update_noteq hsne _ _
  · simp [Function.update_same]

theorem orbitLoopH_preserve (G : ℝ) (planetaryForces : Bool) (allRefs : List ℕ)
    (planetRef simRef centralRef : ℕ) (initialPoint initialVelocity : Vec2)
    (initialVelocityMagnitude : ℝ) :
    ∀ (fuel i : ℕ) (h : JSHeap) (tr : PredTrack) (vr : ℕ),
      (h.bodyAt simRef).velRef = vr →
      (∀ r, r ≠ simRef →
        (orbitLoopH G planetaryForces allRefs planetRef simRef centralRef initialPoint
          initialVelocity initialVelocityMagnitude fuel i h tr).1.bodyAt r = h.bodyAt r) ∧
      (∀ s, s ≠ vr →
        (orbitLoopH G planetaryForces allRefs planetRef simRef centralRef initialPoint
          initialVelocity initialVelocityMagnitude fuel i h tr).1.velAt s = h.velAt s) ∧
      (orbitLoopH G planetaryForces allRefs planetRef simRef centralRef initialPoint
        initialVelocity initialVelocityMagnitude fuel i h tr).1.nextB = h.nextB ∧
      (orbitLoopH G planetaryForces allRefs planetRef simRef centralRef initialPoint
        initialVelocity initialVelocityMagnitude fuel i h tr).1.nextV = h.nextV := by
  intro fuel
  induction fuel with
  | zero =>
    intro i h tr vr hvr
    exact ⟨fun r _ => rfl, fun s _ => rfl, rfl, rfl⟩
  | succ n ih =>
    intro i h tr vr hvr
    obtain ⟨sb, sv, snb, snv, svr⟩ := orbitStepH_preserve G planetaryForces allRefs
      planetRef simRef centralRef initialPoint initialVelocity initialVelocityMagnitude
      i h tr
    by_cases hb : (orbitStepH G planetaryForces allRefs planetRef simRef centralRef
        initialPoint initialVelocity initialVelocityMagnitude i h tr).2.2 = true
    · refine ⟨?_, ?_, ?_, ?_⟩ <;> simp only [orbitLoopH, if_pos hb]
      · exact sb
      · intro s hs
        exact sv s (by rw [hvr]; exact hs)
      · exact snb
      · exact snv
    · obtain ⟨ib, iv2, inb, inv⟩ := ih (i + 1)
        (orbitStepH G planetaryForces allRefs planetRef simRef centralRef initialPoint
          initialVelocity initialVelocityMagnitude i h tr).1
        (orbitStepH G planetaryForces allRefs planetRef simRef centralRef initialPoint
          initialVelocity initialVelocityMagnitude i h tr).2.1 vr (by rw [svr]; exact hvr)
      refine ⟨?_, ?_, ?_, ?_⟩ <;> simp only [orbitLoopH, if_neg hb]
      · intro r hr
        rw [ib r hr]
        exact sb r hr
      · intro s hs
        rw [iv2 s hs]
        exact sv s (by rw [hvr]; exact hs)
      · rw [inb]
        exact snb
      · rw [inv]
        exact snv

/-- Claim C6: the heap-level predictor never mutates its inputs.  The
spread clone allocates a fresh velocity object (at `h.nextV`) and a
fresh body object (at `h.nextB`), and the forward integration writes
only to those two fresh cells — so every live object reference of the
input world (every body reference below `h.nextB` and every velocity
reference below `h.nextV`, in particular the target body and the whole
input body list) denotes exactly the same object after the call as
before; the scratch clone shares no mutable state with the inputs. -/
theorem claim6_no_input_mutation (h : JSHeap) (planetRef : ℕ) (allRefs : List ℕ)
    (G : ℝ) (planetaryForces : Bool) (r s : ℕ) (hr : r < h.nextB) (hs : s < h.nextV) :
    (calculateOrbitPathH h planetRef allRefs G planetaryForces).1.bodyAt r =
      h.bodyAt r ∧
    (calculateOrbitPathH h planetRef allRefs G planetaryForces).1.velAt s =
      h.velAt s := by
  by_cases hg : (allRefs.head?.map fun x => (h.bodyAt x).id) =
      some (h.bodyAt planetRef).id ∨ allRefs.length ≤ 1
  · unfold calculateOrbitPathH
    rw [if_pos hg]
    exact ⟨rfl, rfl⟩
  · cases allRefs with
    | nil => exact absurd (Or.inr (by simp)) hg
    | cons centralRef restRefs =>
      have hcalc : calculateOrbitPathH h planetRef (centralRef :: restRefs) G
          planetaryForces =
          orbitLoopH G planetaryForces (centralRef :: restRefs) planetRef h.nextB
            centralRef
            ⟨(h.bodyAt planetRef).x + (h.bodyAt planetRef).width / 2,
             (h.bodyAt planetRef).y + (h.bodyAt planetRef).height / 2⟩
            (h.velAt (h.bodyAt planetRef).velRef)
            (Real.sqrt
              ((h.velAt (h.bodyAt planetRef).velRef).x *
                (h.velAt (h.bodyAt planetRef).velRef).x +
               (h.velAt (h.bodyAt planetRef).velRef).y *
                (h.velAt (h.bodyAt planetRef).velRef).y)) 2000 0
            ⟨h.nextB + 1,
             Function.update h.bodyAt h.nextB
               { h.bodyAt planetRef with velRef := h.nextV },
             h.nextV + 1,
             Function.update h.velAt h.nextV (h.velAt (h.bodyAt planetRef).velRef)⟩
            ⟨[⟨(h.bodyAt planetRef).x + (h.bodyAt planetRef).width / 2,
               (h.bodyAt planetRef).y + (h.bodyAt planetRef).height / 2⟩], 0,
             Real.sign (h.velAt (h.bodyAt planetRef).velRef).x,
             Real.sign (h.velAt (h.bodyAt planetRef).velRef).y⟩ := by
        unfold calculateOrbitPathH
        rw [if_neg hg]
      obtain ⟨pb, pv, pnb, pnv⟩ := orbitLoopH_preserve G planetaryForces
        (centralRef :: restRefs) planetRef h.nextB centralRef
        ⟨(h.bodyAt planetRef).x + (h.bodyAt planetRef).width / 2,
         (h.bodyAt planetRef).y + (h.bodyAt planetRef).height / 2⟩
        (h.velAt (h.bodyAt planetRef).velRef)
        (Real.sqrt
          ((h.velAt (h.bodyAt planetRef).velRef).x *
            (h.velAt (h.bodyAt planetRef).velRef).x +
           (h.velAt (h.bodyAt planetRef).velRef).y *
            (h.velAt (h.bodyAt planetRef).velRef).y)) 2000 0
        ⟨h.nextB + 1,
         Function.update h.bodyAt h.nextB
           { h.bodyAt planetRef with velRef := h.nextV },
         h.nextV + 1,
         Function.update h.velAt h.nextV (h.velAt (h.bodyAt planetRef).velRef)⟩
        ⟨[⟨(h.bodyAt planetRef).x + (h.bodyAt planetRef).width / 2,
           (h.bodyAt planetRef).y + (h.bodyAt planetRef).height / 2⟩], 0,
         Real.sign (h.velAt (h.bodyAt planetRef).velRef).x,
         Real.sign (h.velAt (h.bodyAt planetRef).velRef).y⟩ h.nextV
        (by simp [Function.update_same])
      constructor
      · rw [hcalc, pb r (Nat.ne_of_lt hr)]
        simp only
        exact Function.update_noteq (Nat.ne_of_lt hr) _ _
      · rw [hcalc, pv s (Nat.ne_of_lt hs)]
        simp only
        exact Function.update_noteq (Nat.ne_of_lt hs) _ _

/-- Claim C6 witness: the theorem applied to a concrete two-body heap
(primary at reference 0, target at reference 1, velocity objects at
references 0 and 1): both input objects are untouched by the call. -/
theorem claim6_witness :
    (calculateOrbitPathH
        ⟨2, fun b => if b = 0 then ⟨"a", 0, 0, 150, 150, 1000000, 0⟩
            else ⟨"b", 200, 0, 30, 30, 1, 1⟩,
         2, fun v => if v = 0 then ⟨0, 0⟩ else ⟨0, 5⟩⟩ 1 [0, 1] 1 true).1.bodyAt 0 =
      (⟨2, fun b => if b = 0 then ⟨"a", 0, 0, 150, 150, 1000000, 0⟩
            else ⟨"b", 200, 0, 30, 30, 1, 1⟩,
         2, fun v => if v = 0 then ⟨0, 0⟩ else ⟨0, 5⟩⟩ : JSHeap).bodyAt 0 ∧
    (calculateOrbitPathH
        ⟨2, fun b => if b = 0 then ⟨"a", 0, 0, 150, 150, 1000000, 0⟩
            else ⟨"b", 200, 0, 30, 30, 1, 1⟩,
         2, fun v => if v = 0 then ⟨0, 0⟩ else ⟨0, 5⟩⟩ 1 [0, 1] 1 true).1.velAt 1 =
      (⟨2, fun b => if b = 0 then ⟨"a", 0, 0, 150, 150, 1000000, 0⟩
            else ⟨"b", 200, 0, 30, 30, 1, 1⟩,
         2, fun v => if v = 0 then ⟨0, 0⟩ else ⟨0, 5⟩⟩ : JSHeap).velAt 1 :=
  claim6_no_input_mutation
    ⟨2, fun b => if b = 0 then ⟨"a", 0, 0, 150, 150, 1000000, 0⟩
        else ⟨"b", 200, 0, 30, 30, 1, 1⟩,
     2, fun v => if v = 0 then ⟨0, 0⟩ else ⟨0, 5⟩⟩ 1 [0, 1] 1 true 0 1
    (by norm_num) (by norm_num)
